import Mathlib

/-!
# Doktolib backend (`backend/main.go`): a shallow embedding

Go strings are Lean `String`s read through their list of runes (`String.data`);
every upload filename is taken to be valid UTF-8 text. `time.Time` and
`time.Duration` are integers (nanoseconds). The relational store, the object
store and the clock are outside the program: each handler takes the answers of
the outside world as explicit arguments and returns its HTTP response, the
new content of the tables it writes, and the list of outside calls it made.
-/

namespace Doktolib

/-! ## Library functions used by the classifier -/

/-- The rune mapping `unicode.ToLower`: any mapping that agrees with ASCII
lower-casing on the ASCII range (it may send a non-ASCII rune anywhere, as
the Unicode tables do for U+212A KELVIN SIGN, whose lower case is `k`). -/
structure CaseMap where
  /-- The lower case of one rune. -/
  lower : Char → Char
  /-- On ASCII it is the ASCII lower case. -/
  ascii : ∀ c : Char, c.val < 128 → lower c = c.toLower

/-- The case mapping that changes the ASCII letters only. -/
def asciiCase : CaseMap := ⟨Char.toLower, fun _ _ => rfl⟩

/-- Go `strings.ToLower`: every rune mapped to its lower case. -/
def stringsToLower (u : CaseMap) (s : String) : String := ⟨s.data.map u.lower⟩

/-- The loop of Go `filepath.Ext`, walking the path from its last byte to its
first: `acc` is the part of the path already walked over. It stops with no
extension at a path separator and with the suffix at the first dot met. -/
def extScan : List Char → List Char → List Char
  | [], _ => []
  | c :: rest, acc =>
    if c = '/' then []
    else if c = '.' then c :: acc
    else extScan rest (c :: acc)

/-- Go `filepath.Ext` (Unix path separator). -/
def filepathExt (path : String) : String := ⟨extScan path.data.reverse []⟩

/-- Go `strings.HasPrefix` on rune lists. -/
def hasPrefixList : List Char → List Char → Bool
  | _, [] => true
  | [], _ :: _ => false
  | c :: s, d :: p => c == d && hasPrefixList s p

/-- Go `strings.Index(s, substr) >= 0` on rune lists: some position of `s`
starts with `substr`. -/
def containsList : List Char → List Char → Bool
  | [], sub => hasPrefixList [] sub
  | c :: s, sub => hasPrefixList (c :: s) sub || containsList s sub

/-- Go `strings.Contains`. -/
def stringsContains (s substr : String) : Bool := containsList s.data substr.data

/-! ## Filename classifier -/

/-- The map literal `allowedTypes` of `validateFileType`. -/
def allowedTypes : List (String × String) :=
  [ (".pdf", "application/pdf"),
    (".jpg", "image/jpeg"),
    (".jpeg", "image/jpeg"),
    (".png", "image/png"),
    (".gif", "image/gif"),
    (".doc", "application/msword"),
    (".docx", "application/vnd.openxmlformats-officedocument.wordprocessingml.document"),
    (".txt", "text/plain") ]

/-- The function `validateFileType` of main.go. -/
def validateFileType (u : CaseMap) (fileName : String) : String × Bool :=
  let ext := stringsToLower u (filepathExt fileName)
  match allowedTypes.lookup ext with
  | some contentType => (contentType, true)
  | none => ("", false)

/-- The function `categorizeFile` of main.go. -/
def categorizeFile (u : CaseMap) (fileName : String) : String :=
  let name := stringsToLower u fileName
  if stringsContains name "lab" || stringsContains name "test" || stringsContains name "result" then
    "lab_results"
  else if stringsContains name "insurance" || stringsContains name "card"
      || stringsContains name "coverage" then
    "insurance"
  else if stringsContains name "prescription" || stringsContains name "rx"
      || stringsContains name "medication" then
    "prescription"
  else if stringsContains name "medical" || stringsContains name "history"
      || stringsContains name "record" then
    "medical_records"
  else
    "other"

/-! ## Data model -/

/-- Go `time.Time`: an instant, in nanoseconds. -/
abbrev Time := Int

/-- Go `time.Duration`: nanoseconds. -/
abbrev Duration := Int

/-- Go `time.Hour`. -/
def Hour : Duration := 3600000000000

/-- The struct `Appointment`; also a row of table `appointments`. -/
structure Appointment where
  ID : String
  DoctorID : String
  PatientName : String
  PatientEmail : String
  DateTime : Time
  Duration : Int
  Status : String
  CreatedAt : Time
  deriving DecidableEq, Repr

/-- The struct `CreateAppointmentRequest`. -/
structure CreateAppointmentRequest where
  DoctorID : String
  PatientName : String
  PatientEmail : String
  DateTime : String
  Duration : Int
  deriving DecidableEq, Repr

/-- The struct `MedicalFile`. -/
structure MedicalFile where
  ID : String
  PatientID : String
  PatientName : String
  FileName : String
  FileType : String
  FileSize : Int
  S3Key : String
  S3URL : String
  Category : String
  UploadedAt : Time
  deriving DecidableEq, Repr

/-- A row of table `medical_files`: the nine columns named by the INSERT and
SELECT statements (the table has no column for the temporary link). -/
structure MedicalFileRow where
  id : String
  patient_id : String
  patient_name : String
  file_name : String
  file_type : String
  file_size : Int
  s3_key : String
  category : String
  uploaded_at : Time
  deriving DecidableEq, Repr

/-- The struct `Prescription`; also a row of table `prescriptions`. -/
structure Prescription where
  ID : String
  AppointmentID : String
  DoctorID : String
  PatientName : String
  Medications : String
  Dosage : String
  Instructions : String
  CreatedAt : Time
  deriving DecidableEq, Repr

/-- The struct `CreatePrescriptionRequest`. -/
structure CreatePrescriptionRequest where
  AppointmentID : String
  Medications : String
  Dosage : String
  Instructions : String
  deriving DecidableEq, Repr

/-- The struct `FileUploadResponse`. -/
structure FileUploadResponse where
  FileID : String
  FileName : String
  FileSize : Int
  S3Key : String
  Category : String
  UploadedAt : Time
  Message : String
  deriving DecidableEq, Repr

/-- The call `rows.Scan(&file.ID, ..., &file.UploadedAt)` into a zero-valued
`MedicalFile`: the nine columns are copied, `S3URL` keeps its zero value. -/
def scanMedicalFile (r : MedicalFileRow) : MedicalFile :=
  { ID := r.id, PatientID := r.patient_id, PatientName := r.patient_name,
    FileName := r.file_name, FileType := r.file_type, FileSize := r.file_size,
    S3Key := r.s3_key, S3URL := "", Category := r.category, UploadedAt := r.uploaded_at }

/-! ## The outside world -/

/-- One argument of a parameterised SQL statement. -/
inductive SqlArg where
  | str (s : String)
  | int (i : Int)
  | time (t : Time)
  deriving DecidableEq, Repr

/-- The struct `s3.PutObjectInput` as `uploadFileToS3` fills it. -/
structure PutObjectInput where
  Bucket : String
  Key : String
  Body : List Nat
  ContentType : String
  ContentLength : Int
  ServerSideEncryption : String
  Metadata : List (String × String)
  deriving DecidableEq, Repr

/-- A call that leaves the process. -/
inductive Call where
  /-- The call `io.ReadAll(file)`. -/
  | readAll
  /-- The call `s3StorageClient.PutObject`. -/
  | putObject (input : PutObjectInput)
  /-- The call `presignClient.PresignGetObject` with `opts.Expires`. -/
  | presignGetObject (bucket key : String) (expires : Duration)
  /-- The call `s3StorageClient.DeleteObject`. -/
  | deleteObject (bucket key : String)
  /-- A statement sent through `databaseConnection`. -/
  | sql (text : String) (args : List SqlArg)
  /-- The call `req.ParseMultipartForm` that `c.PostForm` makes on its first
  use: the request body is read to its end, `bytesRead` bytes in all. -/
  | parseMultipartForm (bytesRead : Nat)
  deriving DecidableEq, Repr

/-- The object-store configuration a handler sees. -/
structure Gateway where
  /-- Whether `s3StorageClient != nil`. -/
  client : Bool
  /-- The value of `os.Getenv("AWS_S3_BUCKET")`. -/
  bucket : String
  deriving DecidableEq, Repr

/-- The JSON body of a response. -/
inductive Body where
  /-- The body `gin.H{"error": msg}`. -/
  | error (msg : String)
  /-- A `FileUploadResponse`. -/
  | uploaded (r : FileUploadResponse)
  /-- A list of `MedicalFile`. -/
  | files (fs : List MedicalFile)
  /-- The body `gin.H{"message": message, "file_id": fileID}`. -/
  | deleted (message fileID : String)
  /-- An `Appointment`. -/
  | appointment (a : Appointment)
  /-- A `Prescription`. -/
  | prescription (p : Prescription)
  deriving DecidableEq, Repr

/-- What `c.JSON(status, body)` sends. -/
structure Response where
  status : Nat
  body : Body
  deriving DecidableEq, Repr

/-- The result of running a handler: the response, the rows of the table it
works on afterwards, the outside calls in the order made, and the lines
written with `log.Printf`. -/
structure Outcome (Row : Type) where
  response : Response
  table : List Row
  calls : List Call
  logs : List String

/-! ## Object store gateway -/

/-- The line `s3Key := fmt.Sprintf("medical-files/%s/%s/%s%s", category,
patientID, fileID, extension)` of `uploadFileToS3`, with
`extension := filepath.Ext(fileName)`. -/
def s3KeyFor (category patientID fileID fileName : String) : String :=
  let extension := filepathExt fileName
  "medical-files/" ++ category ++ "/" ++ patientID ++ "/" ++ fileID ++ extension

/-- The function `uploadFileToS3` of main.go. `uuidNew` is the value of
`uuid.New().String()`, `file` what `io.ReadAll(file)` yields, `putErr` the
error of `PutObject` if it fails. -/
def uploadFileToS3 (g : Gateway) (uuidNew : String) (putErr : Option String)
    (file : Except String (List Nat)) (fileName contentType patientID category : String) :
    Except String String × List Call :=
  if g.client = false then
    (.error "S3 client not initialized", [])
  else if g.bucket = "" then
    (.error "AWS_S3_BUCKET environment variable not set", [])
  else
    let fileID := uuidNew
    let s3Key := s3KeyFor category patientID fileID fileName
    match file with
    | .error err => (.error ("failed to read file: " ++ err), [Call.readAll])
    | .ok fileBytes =>
      let input : PutObjectInput :=
        { Bucket := g.bucket, Key := s3Key, Body := fileBytes, ContentType := contentType,
          ContentLength := fileBytes.length, ServerSideEncryption := "AES256",
          Metadata := [("patient-id", patientID), ("category", category),
            ("original-name", fileName)] }
      match putErr with
      | some err => (.error ("failed to upload to S3: " ++ err), [Call.readAll, Call.putObject input])
      | none => (.ok s3Key, [Call.readAll, Call.putObject input])

/-- The function `generatePresignedURL` of main.go. `presign bucket key
expires` is what `PresignGetObject` yields: the URL of the signed request or
an error. -/
def generatePresignedURL (g : Gateway)
    (presign : String → String → Duration → Except String String)
    (s3Key : String) (expiration : Duration) : Except String String × List Call :=
  if g.client = false then
    (.error "S3 client not initialized", [])
  else if g.bucket = "" then
    (.error "AWS_S3_BUCKET environment variable not set", [])
  else
    match presign g.bucket s3Key expiration with
    | .error err =>
      (.error ("failed to generate presigned URL: " ++ err),
        [Call.presignGetObject g.bucket s3Key expiration])
    | .ok url => (.ok url, [Call.presignGetObject g.bucket s3Key expiration])

/-! ## Handlers -/

/-- The struct `multipart.FileHeader`, the two fields the handler reads. -/
structure FileHeader where
  Filename : String
  Size : Int
  deriving DecidableEq, Repr

/-- The multipart form of an upload request: the two form values and, when
`c.Request.FormFile("file")` succeeds, the header of the file part with what
reading the file yields. -/
structure UploadRequest where
  patient_id : String
  patient_name : String
  file : Option (FileHeader × Except String (List Nat))

/-- What the outside answers during one run of `uploadMedicalFile`. -/
structure UploadWorld where
  /-- The identifier `uuid.New()` gives inside `uploadFileToS3`. -/
  uuidKey : String
  /-- The identifier `uuid.New()` gives in the handler. -/
  uuidRow : String
  /-- The value of `time.Now()`. -/
  now : Time
  /-- The error of `PutObject`, if it fails. -/
  putErr : Option String
  /-- The error of the INSERT, if it fails. -/
  insertErr : Option String

/-- The constant `maxFileSize` of `uploadMedicalFile`. -/
def maxFileSize : Int := 10 * 1024 * 1024

/-- The INSERT statement of `uploadMedicalFile`. -/
def insertFileQuery : String :=
  "\n\t\tINSERT INTO medical_files (id, patient_id, patient_name, file_name, file_type, file_size, s3_key, category, uploaded_at)\n\t\tVALUES ($1, $2, $3, $4, $5, $6, $7, $8, $9)\n\t\tRETURNING id, patient_id, patient_name, file_name, file_type, file_size, s3_key, category, uploaded_at\n\t"

/-- The handler `uploadMedicalFile` of main.go, on the form that `c.PostForm`
and `c.Request.FormFile` hand out once the request is parsed; the parse of
the request body itself is in `uploadMedicalFileRequest`. -/
def uploadMedicalFile (u : CaseMap) (g : Gateway) (w : UploadWorld)
    (table : List MedicalFileRow) (req : UploadRequest) : Outcome MedicalFileRow :=
  let patientID := req.patient_id
  let patientName := req.patient_name
  if patientID = "" ∨ patientName = "" then
    ⟨⟨400, .error "patient_id and patient_name are required"⟩, table, [], []⟩
  else
    match req.file with
    | none => ⟨⟨400, .error "Failed to get file from request"⟩, table, [], []⟩
    | some (header, file) =>
      if header.Size > maxFileSize then
        ⟨⟨400, .error "File size exceeds 10MB limit"⟩, table, [], []⟩
      else
        let (contentType, isValid) := validateFileType u header.Filename
        if isValid = false then
          ⟨⟨400, .error "File type not allowed. Supported: PDF, JPG, PNG, GIF, DOC, DOCX, TXT"⟩,
            table, [], []⟩
        else
          let category := categorizeFile u header.Filename
          match uploadFileToS3 g w.uuidKey w.putErr file header.Filename contentType
              patientID category with
          | (.error err, calls) =>
            ⟨⟨500, .error "Failed to upload file"⟩, table, calls, ["S3 upload error: " ++ err]⟩
          | (.ok s3Key, calls) =>
            let fileID := w.uuidRow
            let row : MedicalFileRow :=
              ⟨fileID, patientID, patientName, header.Filename, contentType, header.Size,
                s3Key, category, w.now⟩
            let insert := Call.sql insertFileQuery
              [.str fileID, .str patientID, .str patientName, .str header.Filename,
                .str contentType, .int header.Size, .str s3Key, .str category, .time w.now]
            match w.insertErr with
            | some err =>
              ⟨⟨500, .error "Failed to save file metadata"⟩, table, calls ++ [insert],
                ["Database error: " ++ err]⟩
            | none =>
              let medicalFile := scanMedicalFile row
              let response : FileUploadResponse :=
                { FileID := medicalFile.ID, FileName := medicalFile.FileName,
                  FileSize := medicalFile.FileSize, S3Key := medicalFile.S3Key,
                  Category := medicalFile.Category, UploadedAt := medicalFile.UploadedAt,
                  Message := "File uploaded successfully" }
              ⟨⟨201, .uploaded response⟩, table ++ [row], calls ++ [insert], []⟩

/-- An upload request as it reaches the handler: the length of its body and
the form that parsing the body yields. -/
structure UploadHTTPRequest where
  /-- The length of the request body, in bytes. -/
  bodySize : Nat
  /-- The form values and the file part found in the body. -/
  form : UploadRequest

/-- The handler `uploadMedicalFile` of main.go from the arrival of the
request. Its first statement, `c.PostForm("patient_id")`, parses the
multipart form, which reads the whole request body, the file part included,
into memory or temporary files; `c.PostForm` and `c.Request.FormFile` then
answer from the parsed form, and the handler goes on as `uploadMedicalFile`
does on that form. The size check therefore comes after the body was read. -/
def uploadMedicalFileRequest (u : CaseMap) (g : Gateway) (w : UploadWorld)
    (table : List MedicalFileRow) (r : UploadHTTPRequest) : Outcome MedicalFileRow :=
  let parsed := uploadMedicalFile u g w table r.form
  { parsed with calls := Call.parseMultipartForm r.bodySize :: parsed.calls }

/-- The raw string literal that opens the query of `getMedicalFiles`. -/
def medicalFilesBaseQuery : String :=
  "\n\t\tSELECT id, patient_id, patient_name, file_name, file_type, file_size, s3_key, category, uploaded_at\n\t\tFROM medical_files\n\t\tWHERE 1=1\n\t"

/-- The query text and arguments `getMedicalFiles` builds from its two
optional filters. -/
def medicalFilesQuery (patientID category : String) : String × List SqlArg :=
  let query := medicalFilesBaseQuery
  let args : List SqlArg := []
  let argCount : Nat := 0
  let (query, args, argCount) :=
    if patientID ≠ "" then
      let argCount := argCount + 1
      (query ++ " AND patient_id = $" ++ toString argCount, args ++ [SqlArg.str patientID],
        argCount)
    else (query, args, argCount)
  let (query, args, _) :=
    if category ≠ "" then
      let argCount := argCount + 1
      (query ++ " AND category = $" ++ toString argCount, args ++ [SqlArg.str category],
        argCount)
    else (query, args, argCount)
  (query ++ " ORDER BY uploaded_at DESC", args)

/-- The part of the loop body of `getMedicalFiles` after the scan: the
presigned URL is asked for the file's key with validity `time.Hour`; on
success it is stored in `S3URL`, on failure a warning is logged and the file
is kept as scanned. With the file come the calls made and the lines logged. -/
def withPresignedURL (g : Gateway)
    (presign : String → String → Duration → Except String String) (file : MedicalFile) :
    MedicalFile × List Call × List String :=
  match generatePresignedURL g presign file.S3Key Hour with
  | (.error err, calls) =>
    (file, calls,
      ["Warning: Failed to generate presigned URL for " ++ file.S3Key ++ ": " ++ err])
  | (.ok presignedURL, calls) => ({ file with S3URL := presignedURL }, calls, [])

/-- The loop `for rows.Next()` of `getMedicalFiles` over the rows the store
returned, `none` standing for a row on which `rows.Scan` fails. The result is
`none` when a scan failed (the handler then answers 500), else the files
appended in order; with it the presign calls made and the warnings logged. -/
def scanMedicalFiles (g : Gateway)
    (presign : String → String → Duration → Except String String) :
    List (Option MedicalFileRow) → Option (List MedicalFile) × List Call × List String
  | [] => (some [], [], [])
  | none :: _ => (none, [], [])
  | some r :: rest =>
    let file := withPresignedURL g presign (scanMedicalFile r)
    let tail := scanMedicalFiles g presign rest
    (tail.1.map (fun files => file.1 :: files), file.2.1 ++ tail.2.1, file.2.2 ++ tail.2.2)

/-- The handler `getMedicalFiles` of main.go. `store text args` is what
`databaseConnection.Query` yields for a statement: an error or the rows of
the result set, in the order `rows.Next()` delivers them. -/
def getMedicalFiles (g : Gateway)
    (presign : String → String → Duration → Except String String)
    (store : String → List SqlArg → Except String (List (Option MedicalFileRow)))
    (patientID category : String) : Response × List Call × List String :=
  let q := medicalFilesQuery patientID category
  match store q.1 q.2 with
  | .error _ => (⟨500, .error "Failed to fetch medical files"⟩, [Call.sql q.1 q.2], [])
  | .ok rows =>
    match scanMedicalFiles g presign rows with
    | (none, calls, logs) =>
      (⟨500, .error "Failed to scan medical file"⟩, Call.sql q.1 q.2 :: calls, logs)
    | (some files, calls, logs) => (⟨200, .files files⟩, Call.sql q.1 q.2 :: calls, logs)

/-- What the outside answers during one run of `deleteMedicalFile`. -/
structure DeleteWorld where
  /-- An error of the SELECT other than `sql.ErrNoRows`, if it fails. -/
  selectErr : Option String
  /-- The error of `DeleteObject`, if it fails. -/
  deleteObjectErr : Option String
  /-- The error of the DELETE statement, if it fails. -/
  execErr : Option String

/-- The SELECT statement of `deleteMedicalFile`. -/
def selectFileQuery : String :=
  "SELECT id, patient_id, patient_name, file_name, file_type, file_size, s3_key, category, uploaded_at FROM medical_files WHERE id = $1"

/-- The DELETE statement of `deleteMedicalFile`. -/
def deleteFileQuery : String := "DELETE FROM medical_files WHERE id = $1"

/-- The handler `deleteMedicalFile` of main.go, on the rows of table
`medical_files`: `QueryRow` gives the first row with the id, or
`sql.ErrNoRows`; the DELETE removes every row with the id. -/
def deleteMedicalFile (g : Gateway) (w : DeleteWorld) (table : List MedicalFileRow)
    (fileID : String) : Outcome MedicalFileRow :=
  let select := Call.sql selectFileQuery [.str fileID]
  match w.selectErr with
  | some _ => ⟨⟨500, .error "Failed to fetch file info"⟩, table, [select], []⟩
  | none =>
    match table.find? (fun r => r.id = fileID) with
    | none => ⟨⟨404, .error "File not found"⟩, table, [select], []⟩
    | some r =>
      let file := scanMedicalFile r
      let s3 : List Call × List String :=
        if g.client = true then
          if g.bucket ≠ "" then
            match w.deleteObjectErr with
            | some err =>
              ([Call.deleteObject g.bucket file.S3Key],
                ["Warning: Failed to delete file from S3: " ++ err])
            | none => ([Call.deleteObject g.bucket file.S3Key], [])
          else ([], [])
        else ([], [])
      let exec := Call.sql deleteFileQuery [.str fileID]
      match w.execErr with
      | some _ =>
        ⟨⟨500, .error "Failed to delete file from database"⟩, table,
          select :: s3.1 ++ [exec], s3.2⟩
      | none =>
        ⟨⟨200, .deleted "File deleted successfully" fileID⟩,
          table.filter (fun r => r.id ≠ fileID), select :: s3.1 ++ [exec], s3.2⟩

/-- What the outside answers during one run of `createAppointment`. -/
structure AppointmentWorld where
  /-- The function `time.Parse("2006-01-02T15:04:05Z", ·)`: the instant, or
  `none` when the text does not have the layout. -/
  parse : String → Option Time
  /-- The value of `time.Now()` in the past-date check. -/
  now : Time
  /-- The identifier `uuid.New()` gives. -/
  uuidNew : String
  /-- The value of `time.Now()` passed as `created_at`. -/
  createdAt : Time
  /-- The error of the INSERT, if it fails. -/
  insertErr : Option String

/-- The INSERT statement of `createAppointment`. -/
def insertAppointmentQuery : String :=
  "\n\t\tINSERT INTO appointments (id, doctor_id, patient_name, patient_email, date_time, duration_minutes, status, created_at)\n\t\tVALUES ($1, $2, $3, $4, $5, $6, $7, $8)\n\t\tRETURNING id, doctor_id, patient_name, patient_email, date_time, duration_minutes, status, created_at\n\t"

/-- The handler `createAppointment` of main.go. `bound` is what
`c.ShouldBindJSON(&req)` yields: the text of its error, or the request. -/
def createAppointment (w : AppointmentWorld) (table : List Appointment)
    (bound : Except String CreateAppointmentRequest) : Outcome Appointment :=
  match bound with
  | .error err => ⟨⟨400, .error err⟩, table, [], []⟩
  | .ok req =>
    match w.parse req.DateTime with
    | none => ⟨⟨400, .error "Invalid date format"⟩, table, [], []⟩
    | some appointmentTime =>
      if appointmentTime < w.now then
        ⟨⟨400, .error "Cannot book appointments in the past"⟩, table, [], []⟩
      else
        let appointmentID := w.uuidNew
        let insert := Call.sql insertAppointmentQuery
          [.str appointmentID, .str req.DoctorID, .str req.PatientName, .str req.PatientEmail,
            .time appointmentTime, .int req.Duration, .str "confirmed", .time w.createdAt]
        match w.insertErr with
        | some _ =>
          ⟨⟨500, .error "Failed to create appointment"⟩, table, [insert], []⟩
        | none =>
          let appointment : Appointment :=
            ⟨appointmentID, req.DoctorID, req.PatientName, req.PatientEmail, appointmentTime,
              req.Duration, "confirmed", w.createdAt⟩
          ⟨⟨201, .appointment appointment⟩, table ++ [appointment], [insert], []⟩

/-- What the outside answers during one run of `createPrescription`. -/
structure PrescriptionWorld where
  /-- An error of the SELECT other than `sql.ErrNoRows`, if it fails. -/
  selectErr : Option String
  /-- The identifier `uuid.New()` gives. -/
  uuidNew : String
  /-- The value of `time.Now()` passed as `created_at`. -/
  now : Time
  /-- The error of the INSERT, if it fails. -/
  insertErr : Option String

/-- The SELECT statement of `createPrescription`. -/
def selectAppointmentQuery : String :=
  "\n\t\tSELECT id, doctor_id, patient_name, patient_email, date_time, duration_minutes, status, created_at\n\t\tFROM appointments WHERE id = $1\n\t"

/-- The INSERT statement of `createPrescription`. -/
def insertPrescriptionQuery : String :=
  "\n\t\tINSERT INTO prescriptions (id, appointment_id, doctor_id, patient_name, medications, dosage, instructions, created_at)\n\t\tVALUES ($1, $2, $3, $4, $5, $6, $7, $8)\n\t\tRETURNING id, appointment_id, doctor_id, patient_name, medications, dosage, instructions, created_at\n\t"

/-- The handler `createPrescription` of main.go, on the rows of table
`appointments` (read) and of table `prescriptions` (written). `bound` is what
`c.ShouldBindJSON(&req)` yields; `QueryRow` gives the first appointment with
the id, or `sql.ErrNoRows`. -/
def createPrescription (w : PrescriptionWorld) (appointments : List Appointment)
    (table : List Prescription) (bound : Except String CreatePrescriptionRequest) :
    Outcome Prescription :=
  match bound with
  | .error err => ⟨⟨400, .error err⟩, table, [], []⟩
  | .ok req =>
    let select := Call.sql selectAppointmentQuery [.str req.AppointmentID]
    match w.selectErr with
    | some _ => ⟨⟨500, .error "Failed to fetch appointment"⟩, table, [select], []⟩
    | none =>
      match appointments.find? (fun a => a.ID = req.AppointmentID) with
      | none => ⟨⟨404, .error "Appointment not found"⟩, table, [select], []⟩
      | some appointment =>
        let prescriptionID := w.uuidNew
        let insert := Call.sql insertPrescriptionQuery
          [.str prescriptionID, .str req.AppointmentID, .str appointment.DoctorID,
            .str appointment.PatientName, .str req.Medications, .str req.Dosage,
            .str req.Instructions, .time w.now]
        match w.insertErr with
        | some _ =>
          ⟨⟨500, .error "Failed to create prescription"⟩, table, [select, insert], []⟩
        | none =>
          let prescription : Prescription :=
            ⟨prescriptionID, req.AppointmentID, appointment.DoctorID, appointment.PatientName,
              req.Medications, req.Dosage, req.Instructions, w.now⟩
          ⟨⟨201, .prescription prescription⟩, table ++ [prescription], [select, insert], []⟩

/-! ## Query building -/

/-- The raw string literal that opens the query of `getDoctors`. -/
def doctorsBaseQuery : String :=
  "\n\t\tSELECT id, name, specialty, location, rating, price_per_hour, avatar, experience_years, languages \n\t\tFROM doctors \n\t\tWHERE 1=1\n\t"

/-- The query text and arguments `getDoctors` builds from its two optional
filters and passes to `databaseConnection.Query`. -/
def doctorsQuery (specialty location : String) : String × List SqlArg :=
  let query := doctorsBaseQuery
  let args : List SqlArg := []
  let argCount : Nat := 0
  let (query, args, argCount) :=
    if specialty ≠ "" then
      let argCount := argCount + 1
      (query ++ " AND LOWER(specialty) LIKE LOWER($" ++ toString argCount ++ ")",
        args ++ [SqlArg.str ("%" ++ specialty ++ "%")], argCount)
    else (query, args, argCount)
  let (query, args, _) :=
    if location ≠ "" then
      let argCount := argCount + 1
      (query ++ " AND LOWER(location) LIKE LOWER($" ++ toString argCount ++ ")",
        args ++ [SqlArg.str ("%" ++ location ++ "%")], argCount)
    else (query, args, argCount)
  (query ++ " ORDER BY rating DESC, name ASC", args)

/-- The raw string literal that opens the query of `getDoctorPrescriptions`. -/
def doctorPrescriptionsBaseQuery : String :=
  "\n\t\tSELECT p.id, p.appointment_id, p.doctor_id, p.patient_name, p.medications, p.dosage, p.instructions, p.created_at,\n\t\t       a.date_time, a.duration_minutes, a.status\n\t\tFROM prescriptions p\n\t\tLEFT JOIN appointments a ON p.appointment_id = a.id\n\t\tWHERE p.doctor_id = $1\n\t"

/-- The query text and arguments `getDoctorPrescriptions` builds from the
doctor id and its two optional filters and passes to
`databaseConnection.Query`. -/
def doctorPrescriptionsQuery (doctorID patientName medication : String) :
    String × List SqlArg :=
  let query := doctorPrescriptionsBaseQuery
  let args : List SqlArg := [SqlArg.str doctorID]
  let argCount : Nat := 1
  let (query, args, argCount) :=
    if patientName ≠ "" then
      let argCount := argCount + 1
      (query ++ " AND LOWER(p.patient_name) LIKE LOWER($" ++ toString argCount ++ ")",
        args ++ [SqlArg.str ("%" ++ patientName ++ "%")], argCount)
    else (query, args, argCount)
  let (query, args, _) :=
    if medication ≠ "" then
      let argCount := argCount + 1
      (query ++ " AND LOWER(p.medications) LIKE LOWER($" ++ toString argCount ++ ")",
        args ++ [SqlArg.str ("%" ++ medication ++ "%")], argCount)
    else (query, args, argCount)
  (query ++ " ORDER BY p.created_at DESC", args)

/-- The calendar functions `getDoctorAppointments` uses, for the location of
the clock: `startOfDay now` is `time.Date(now.Year(), now.Month(), now.Day(),
0, 0, 0, 0, now.Location())` and `nextDay t` is `t.AddDate(0, 0, 1)`, which is
later than `t`. -/
structure Calendar where
  /-- Midnight at the start of the day of an instant. -/
  startOfDay : Time → Time
  /-- The same wall clock time one calendar day later. -/
  nextDay : Time → Time
  /-- One calendar day later is later. -/
  later : ∀ t : Time, t < nextDay t

/-- The calendar of UTC: days of 86400 seconds. -/
def utcCalendar : Calendar :=
  { startOfDay := fun t => t - t % 86400000000000,
    nextDay := fun t => t + 86400000000000,
    later := fun t => Int.lt_add_of_pos_right t (by decide) }

/-- The raw string literal that opens the query of `getDoctorAppointments`. -/
def doctorAppointmentsBaseQuery : String :=
  "\n\t\tSELECT a.id, a.doctor_id, a.patient_name, a.patient_email, a.date_time, a.duration_minutes, a.status, a.created_at,\n\t\t       p.id, p.medications, p.dosage, p.instructions, p.created_at\n\t\tFROM appointments a\n\t\tLEFT JOIN prescriptions p ON a.id = p.appointment_id\n\t\tWHERE a.doctor_id = $1\n\t"

/-- The Go slice `s[:n]`, for a text of ASCII characters (one byte each), as
every query text of this program is. -/
def sliceTo (s : String) (n : Nat) : String := ⟨s.data.take n⟩

/-- The part of `getDoctorAppointments` up to its call of
`databaseConnection.Query`: the query text and the arguments passed, for the
current instant `now`, the doctor id and the value of the `filter` query
parameter. -/
def doctorAppointmentsQuery (cal : Calendar) (now : Time) (doctorID filter : String) :
    String × List SqlArg :=
  let query := doctorAppointmentsBaseQuery
  let today := cal.startOfDay now
  let tomorrow := cal.nextDay today
  let query :=
    if filter = "past" then query ++ " AND a.date_time < $2"
    else if filter = "today" then query ++ " AND a.date_time >= $2 AND a.date_time < $3"
    else if filter = "future" then query ++ " AND a.date_time >= $2"
    else query
  let query := query ++ " ORDER BY a.date_time DESC"
  if filter = "past" then (query, [SqlArg.str doctorID, SqlArg.time today])
  else if filter = "today" then
    (query, [SqlArg.str doctorID, SqlArg.time today, SqlArg.time tomorrow])
  else if filter = "future" then (query, [SqlArg.str doctorID, SqlArg.time tomorrow])
  else
    (sliceTo query (query.data.length - 25) ++ " ORDER BY a.date_time DESC",
      [SqlArg.str doctorID])

/-! ## Example inputs -/

/-- A configured gateway. -/
def exampleGateway : Gateway := ⟨true, "doktolib-files"⟩

/-- A gateway whose client was never initialised. -/
def exampleNoClient : Gateway := ⟨false, "doktolib-files"⟩

/-- A gateway with a client but no bucket name in the environment. -/
def exampleNoBucket : Gateway := ⟨true, ""⟩

/-- An outside world in which every call of an upload succeeds. -/
def exampleUploadWorld : UploadWorld :=
  { uuidKey := "123e4567-e89b-12d3-a456-426614174000",
    uuidRow := "9b2f0c1e-5d0a-4c3b-8f6e-0a1b2c3d4e5f",
    now := 1700000000000000000, putErr := none, insertErr := none }

/-- An upload of a three-byte file named `Lab_Insurance.PDF`. -/
def exampleUpload : UploadRequest :=
  { patient_id := "patient-1", patient_name := "Ada Lovelace",
    file := some (⟨"Lab_Insurance.PDF", 3⟩, .ok [37, 80, 68]) }

/-- An upload whose file part declares one byte more than 10 MiB. -/
def exampleOversize : UploadRequest :=
  { patient_id := "patient-1", patient_name := "Ada Lovelace",
    file := some (⟨"scan.pdf", 10485761⟩, .error "unexpected EOF") }

/-- An upload whose file part declares exactly 10 MiB, the read of which
breaks off. -/
def exampleBoundary : UploadRequest :=
  { patient_id := "patient-1", patient_name := "Ada Lovelace",
    file := some (⟨"scan.pdf", 10485760⟩, .error "unexpected EOF") }

/-- The oversize upload as a request: 501 bytes of multipart framing and form
values around the file part. -/
def exampleOversizeRequest : UploadHTTPRequest := ⟨10486262, exampleOversize⟩

/-- The upload of exactly 10 MiB as a request. -/
def exampleBoundaryRequest : UploadHTTPRequest := ⟨10486261, exampleBoundary⟩

/-- An outside world for a booking: the clock stands at 1700000000 s, one
date text is known to the parser, every call succeeds. -/
def exampleAppointmentWorld : AppointmentWorld :=
  { parse := fun s =>
      if s = "2030-01-01T10:00:00Z" then some 1893492000000000000
      else if s = "2020-01-01T10:00:00Z" then some 1577872800000000000
      else none,
    now := 1700000000000000000, uuidNew := "0c1d2e3f-0000-4000-8000-000000000001",
    createdAt := 1700000000000000001, insertErr := none }

/-- A booking in the future of `exampleAppointmentWorld`. -/
def exampleBooking : CreateAppointmentRequest :=
  ⟨"doctor-7", "Ada Lovelace", "ada@example.org", "2030-01-01T10:00:00Z", 30⟩

/-- A booking in the past of `exampleAppointmentWorld`. -/
def examplePastBooking : CreateAppointmentRequest :=
  ⟨"doctor-7", "Ada Lovelace", "ada@example.org", "2020-01-01T10:00:00Z", 30⟩

/-- Two rows of table `medical_files`. -/
def exampleRows : List MedicalFileRow :=
  [ ⟨"file-1", "patient-1", "Ada Lovelace", "lab.pdf", "application/pdf", 3,
      "medical-files/lab_results/patient-1/123e4567-e89b-12d3-a456-426614174000.pdf",
      "lab_results", 1700000000000000000⟩,
    ⟨"file-2", "patient-2", "Alan Turing", "card.png", "image/png", 5,
      "medical-files/insurance/patient-2/123e4567-e89b-12d3-a456-426614174001.png",
      "insurance", 1700000000000000005⟩ ]

/-- An outside world for a deletion in which the object deletion fails and
the store answers. -/
def exampleDeleteWorld : DeleteWorld :=
  { selectErr := none, deleteObjectErr := some "AccessDenied", execErr := none }

/-- A store that answers every query with `exampleRows`. -/
def exampleStore : String → List SqlArg → Except String (List (Option MedicalFileRow)) :=
  fun _ _ => .ok (exampleRows.map some)

/-- A presigner that signs every request. -/
def examplePresign : String → String → Duration → Except String String :=
  fun bucket key _ => .ok ("https://" ++ bucket ++ ".s3.amazonaws.com/" ++ key ++ "?X-Amz-Expires=3600")

/-- A presigner that fails on every request. -/
def exampleFailingPresign : String → String → Duration → Except String String :=
  fun _ _ _ => .error "failed to sign request"

/-- Two rows of table `appointments`. -/
def exampleAppointments : List Appointment :=
  [ ⟨"appt-1", "doctor-7", "Ada Lovelace", "ada@example.org", 1893492000000000000, 30,
      "confirmed", 1700000000000000001⟩,
    ⟨"appt-2", "doctor-8", "Alan Turing", "alan@example.org", 1893495600000000000, 45,
      "confirmed", 1700000000000000002⟩ ]

/-- An outside world for a prescription in which the store answers. -/
def examplePrescriptionWorld : PrescriptionWorld :=
  { selectErr := none, uuidNew := "5e6f7a8b-0000-4000-8000-000000000002",
    now := 1700000000000000003, insertErr := none }

/-- A prescription for the first example appointment. -/
def examplePrescriptionRequest : CreatePrescriptionRequest :=
  ⟨"appt-1", "Amoxicillin", "500 mg three times a day", "Take with food"⟩

/-- A prescription for an appointment that is not in the example rows. -/
def exampleOrphanPrescriptionRequest : CreatePrescriptionRequest :=
  ⟨"appt-9", "Amoxicillin", "500 mg three times a day", "Take with food"⟩

/-! ## Vocabulary of the statements -/

/-- The text `w` occurs in `s` as a run of consecutive runes. -/
def occursIn (w s : String) : Prop := w.data <:+: s.data

/-- The number written in decimal digits at the start of a text, 0 when the
text starts with no digit. -/
def leadingNumber (cs : List Char) : Nat :=
  (cs.takeWhile Char.isDigit).foldl (fun n c => 10 * n + (c.toNat - 48)) 0

/-- The numbers of the placeholders `$n` of a text, in order of appearance. -/
def placeholdersOf : List Char → List Nat
  | [] => []
  | c :: cs => if c = '$' then leadingNumber cs :: placeholdersOf cs else placeholdersOf cs

/-- The numbers of the placeholders `$n` of a statement, in order of
appearance. -/
def placeholders (text : String) : List Nat := placeholdersOf text.data

/-- The number of positions of `s` at which `w` starts. -/
def occurrencesOf (w : List Char) : List Char → Nat
  | [] => if hasPrefixList [] w then 1 else 0
  | c :: s => (if hasPrefixList (c :: s) w then 1 else 0) + occurrencesOf w s

/-- The number of occurrences of the text `w` in `s`. -/
def occurrences (w s : String) : Nat := occurrencesOf w.data s.data

/-- A date condition that `getDoctorAppointments` appends to its WHERE
clause: `a.date_time < $n` or `a.date_time >= $n`. -/
inductive DateCond where
  /-- The condition `a.date_time < $n`. -/
  | before (n : Nat)
  /-- The condition `a.date_time >= $n`. -/
  | notBefore (n : Nat)
  deriving DecidableEq, Repr

/-- The SQL text of a date condition, as appended to the query. -/
def dateCondText : DateCond → String
  | .before n => " AND a.date_time < $" ++ toString n
  | .notBefore n => " AND a.date_time >= $" ++ toString n

/-- The instant bound to placeholder `$n` by an argument list, if any. -/
def timeArg (args : List SqlArg) (n : Nat) : Option Time :=
  match args.get? (n - 1) with
  | some (.time t) => some t
  | _ => none

/-- The meaning of a date condition for a row with the given `date_time`. -/
def dateCondHolds (args : List SqlArg) (dateTime : Time) : DateCond → Bool
  | .before n =>
    match timeArg args n with
    | some t => decide (dateTime < t)
    | none => false
  | .notBefore n =>
    match timeArg args n with
    | some t => decide (t ≤ dateTime)
    | none => false

/-- The meaning of `WHERE a.doctor_id = $1` followed by date conditions: the
appointment is of the doctor bound to `$1` and every date condition holds. -/
def selectsAppointment (conds : List DateCond) (args : List SqlArg) (a : Appointment) : Bool :=
  decide (args.head? = some (SqlArg.str a.DoctorID)) &&
    conds.all (fun c => dateCondHolds args a.DateTime c)

/-! ## Lemmas on the library functions -/

theorem extScan_of_dot (suf : List Char) (h1 : '.' ∉ suf) (h2 : '/' ∉ suf) :
    ∀ (rest acc : List Char),
      extScan (suf.reverse ++ '.' :: rest) acc = '.' :: (suf ++ acc) := by
  induction suf using List.reverseRecOn with
  | nil => intro rest acc; simp [extScan]
  | append_singleton s c ih =>
    intro rest acc
    simp only [List.mem_append, List.mem_singleton, not_or] at h1 h2
    have hc1 : c ≠ '.' := fun h => h1.2 h.symm
    have hc2 : c ≠ '/' := fun h => h2.2 h.symm
    simp only [List.reverse_append, List.reverse_cons, List.reverse_nil, List.nil_append,
      List.singleton_append, List.cons_append, extScan, hc1, hc2, if_false]
    rw [ih h1.1 h2.1]
    simp

theorem extScan_no_dot (suf : List Char) (h1 : '.' ∉ suf) :
    ∀ (rest acc : List Char), (rest = [] ∨ ∃ r, rest = '/' :: r) →
      extScan (suf.reverse ++ rest) acc = [] := by
  induction suf using List.reverseRecOn with
  | nil =>
    intro rest acc h
    rcases h with h | ⟨r, h⟩ <;> subst h <;> simp [extScan]
  | append_singleton s c ih =>
    intro rest acc h
    simp only [List.mem_append, List.mem_singleton, not_or] at h1
    have hc1 : c ≠ '.' := fun h => h1.2 h.symm
    simp only [List.reverse_append, List.reverse_cons, List.reverse_nil, List.nil_append,
      List.singleton_append, List.cons_append, extScan, hc1, if_false]
    split
    · rfl
    · exact ih h1.1 rest _ h


theorem filepathExt_of_dot (path : String) (pre suf : List Char)
    (h : path.data = pre ++ '.' :: suf) (h1 : '.' ∉ suf) (h2 : '/' ∉ suf) :
    filepathExt path = ⟨'.' :: suf⟩ := by
  unfold filepathExt
  rw [h, List.reverse_append, List.reverse_cons, List.append_assoc, List.singleton_append,
    extScan_of_dot suf h1 h2]
  simp

theorem filepathExt_no_dot (path : String) (pre suf : List Char)
    (h : path.data = pre ++ suf) (h1 : '.' ∉ suf) (hpre : pre = [] ∨ ∃ p, pre = p ++ ['/']) :
    filepathExt path = "" := by
  unfold filepathExt
  have hrev : pre.reverse = [] ∨ ∃ r, pre.reverse = '/' :: r := by
    rcases hpre with hp | ⟨p, hp⟩
    · left; simp [hp]
    · right; exact ⟨p.reverse, by simp [hp]⟩
  rw [h, List.reverse_append, extScan_no_dot suf h1 _ _ hrev]

theorem lookup_allowedTypes (e : String) :
    (∀ T, allowedTypes.lookup e = some T ↔
      (e = ".pdf" ∧ T = "application/pdf") ∨ (e = ".jpg" ∧ T = "image/jpeg") ∨
      (e = ".jpeg" ∧ T = "image/jpeg") ∨ (e = ".png" ∧ T = "image/png") ∨
      (e = ".gif" ∧ T = "image/gif") ∨ (e = ".doc" ∧ T = "application/msword") ∨
      (e = ".docx" ∧
        T = "application/vnd.openxmlformats-officedocument.wordprocessingml.document") ∨
      (e = ".txt" ∧ T = "text/plain")) ∧
    (allowedTypes.lookup e = none ↔
      e ∉ [".pdf", ".jpg", ".jpeg", ".png", ".gif", ".doc", ".docx", ".txt"]) := by
  unfold allowedTypes
  by_cases h1 : e = ".pdf"
  · subst h1; exact ⟨fun T => by simp [List.lookup, eq_comm], by simp [List.lookup]⟩
  by_cases h2 : e = ".jpg"
  · subst h2; exact ⟨fun T => by simp [List.lookup, eq_comm], by simp [List.lookup]⟩
  by_cases h3 : e = ".jpeg"
  · subst h3; exact ⟨fun T => by simp [List.lookup, eq_comm], by simp [List.lookup]⟩
  by_cases h4 : e = ".png"
  · subst h4; exact ⟨fun T => by simp [List.lookup, eq_comm], by simp [List.lookup]⟩
  by_cases h5 : e = ".gif"
  · subst h5; exact ⟨fun T => by simp [List.lookup, eq_comm], by simp [List.lookup]⟩
  by_cases h6 : e = ".doc"
  · subst h6; exact ⟨fun T => by simp [List.lookup, eq_comm], by simp [List.lookup]⟩
  by_cases h7 : e = ".docx"
  · subst h7; exact ⟨fun T => by simp [List.lookup, eq_comm], by simp [List.lookup]⟩
  by_cases h8 : e = ".txt"
  · subst h8; exact ⟨fun T => by simp [List.lookup, eq_comm], by simp [List.lookup]⟩
  have b1 : (e == ".pdf") = false := by simpa using h1
  have b2 : (e == ".jpg") = false := by simpa using h2
  have b3 : (e == ".jpeg") = false := by simpa using h3
  have b4 : (e == ".png") = false := by simpa using h4
  have b5 : (e == ".gif") = false := by simpa using h5
  have b6 : (e == ".doc") = false := by simpa using h6
  have b7 : (e == ".docx") = false := by simpa using h7
  have b8 : (e == ".txt") = false := by simpa using h8
  exact ⟨fun T => by
      simp [List.lookup, b1, b2, b3, b4, b5, b6, b7, b8, h1, h2, h3, h4, h5, h6, h7, h8],
    by simp [List.lookup, b1, b2, b3, b4, b5, b6, b7, b8, h1, h2, h3, h4, h5, h6, h7, h8]⟩

theorem validateFileType_eq_true_iff (u : CaseMap) (fileName T : String) :
    validateFileType u fileName = (T, true) ↔
      allowedTypes.lookup (stringsToLower u (filepathExt fileName)) = some T := by
  unfold validateFileType
  cases h : allowedTypes.lookup (stringsToLower u (filepathExt fileName)) <;> simp [h]

theorem validateFileType_of_lookup_none (u : CaseMap) (fileName : String)
    (h : allowedTypes.lookup (stringsToLower u (filepathExt fileName)) = none) :
    validateFileType u fileName = ("", false) := by
  unfold validateFileType
  simp [h]

/-- C1: `validateFileType` answers `(T, true)` exactly when the lower-cased
extension of the filename is one of the eight allow-listed extensions, `T`
being the content type mapped to it, and `("", false)` for every other
filename. The extension is the suffix from the last dot of the last path
element (empty when that element has no dot), so an allowed extension that is
not the last one does not count, and the match ignores letter case. -/
theorem validateFileType_spec (u : CaseMap) (fileName : String) :
    (∀ T : String, validateFileType u fileName = (T, true) ↔
      (stringsToLower u (filepathExt fileName) = ".pdf" ∧ T = "application/pdf") ∨
      (stringsToLower u (filepathExt fileName) = ".jpg" ∧ T = "image/jpeg") ∨
      (stringsToLower u (filepathExt fileName) = ".jpeg" ∧ T = "image/jpeg") ∨
      (stringsToLower u (filepathExt fileName) = ".png" ∧ T = "image/png") ∨
      (stringsToLower u (filepathExt fileName) = ".gif" ∧ T = "image/gif") ∨
      (stringsToLower u (filepathExt fileName) = ".doc" ∧ T = "application/msword") ∨
      (stringsToLower u (filepathExt fileName) = ".docx" ∧
        T = "application/vnd.openxmlformats-officedocument.wordprocessingml.document") ∨
      (stringsToLower u (filepathExt fileName) = ".txt" ∧ T = "text/plain")) ∧
    (stringsToLower u (filepathExt fileName) ∉
        [".pdf", ".jpg", ".jpeg", ".png", ".gif", ".doc", ".docx", ".txt"] →
      validateFileType u fileName = ("", false)) ∧
    ((validateFileType u fileName).2 = true ↔
      stringsToLower u (filepathExt fileName) ∈
        [".pdf", ".jpg", ".jpeg", ".png", ".gif", ".doc", ".docx", ".txt"]) ∧
    (∀ pre suf : List Char, fileName.data = pre ++ '.' :: suf → '.' ∉ suf → '/' ∉ suf →
      filepathExt fileName = ⟨'.' :: suf⟩) ∧
    (∀ pre suf : List Char, fileName.data = pre ++ suf → '.' ∉ suf →
      (pre = [] ∨ ∃ p, pre = p ++ ['/']) → filepathExt fileName = "") ∧
    (∀ other : String,
      stringsToLower u (filepathExt other) = stringsToLower u (filepathExt fileName) →
      validateFileType u other = validateFileType u fileName) ∧
    validateFileType u "scan.pdf.exe" = ("", false) ∧
    validateFileType u "scan" = ("", false) ∧
    validateFileType u "X.PDF" = ("application/pdf", true) ∧
    validateFileType u "x.pdf" = ("application/pdf", true) := by
  refine ⟨fun T => ?_, fun h => ?_, ?_, fun pre suf h h1 h2 => ?_, fun pre suf h h1 hp => ?_,
    fun other h => ?_, ?_, ?_, ?_, ?_⟩
  · rw [validateFileType_eq_true_iff]
    exact (lookup_allowedTypes _).1 T
  · exact validateFileType_of_lookup_none u fileName ((lookup_allowedTypes _).2.2 h)
  · rw [← not_iff_not, ← (lookup_allowedTypes _).2]
    unfold validateFileType
    cases h : allowedTypes.lookup (stringsToLower u (filepathExt fileName)) <;> simp [h]
  · exact filepathExt_of_dot fileName pre suf h h1 h2
  · exact filepathExt_no_dot fileName pre suf h h1 hp
  · unfold validateFileType
    rw [h]
  · simp [validateFileType, stringsToLower, filepathExt, extScan, u.ascii, allowedTypes,
      List.lookup]
  · simp [validateFileType, stringsToLower, filepathExt, extScan, u.ascii, allowedTypes,
      List.lookup]
  · simp [validateFileType, stringsToLower, filepathExt, extScan, u.ascii, allowedTypes,
      List.lookup]
  · simp [validateFileType, stringsToLower, filepathExt, extScan, u.ascii, allowedTypes,
      List.lookup]

theorem hasPrefixList_iff : ∀ (s p : List Char), hasPrefixList s p = true ↔ p <+: s
  | s, [] => by simp [hasPrefixList]
  | [], d :: p => by simp [hasPrefixList]
  | c :: s, d :: p => by
    simp only [hasPrefixList, Bool.and_eq_true, beq_iff_eq, List.cons_prefix_cons,
      hasPrefixList_iff s p]
    exact and_congr_left fun _ => eq_comm

theorem containsList_iff : ∀ (s sub : List Char), containsList s sub = true ↔ sub <:+: s
  | [], sub => by
    simp only [containsList, hasPrefixList_iff, List.prefix_nil, List.infix_nil]
  | c :: s, sub => by
    simp only [containsList, Bool.or_eq_true, hasPrefixList_iff, containsList_iff s sub,
      List.infix_cons_iff]

theorem stringsContains_iff (s w : String) : stringsContains s w = true ↔ occursIn w s :=
  containsList_iff s.data w.data

/-- C2: `categorizeFile` answers one of exactly five values, decided by the
first rule that matches the lower-cased filename, in the fixed order
lab_results, insurance, prescription, medical_records, other; a filename
matching an earlier and a later rule gets the earlier category, and two
filenames with the same lower-cased text get the same category. -/
theorem categorizeFile_spec (u : CaseMap) (fileName : String) :
    categorizeFile u fileName ∈
      ["lab_results", "insurance", "prescription", "medical_records", "other"] ∧
    (occursIn "lab" (stringsToLower u fileName) ∨ occursIn "test" (stringsToLower u fileName) ∨
        occursIn "result" (stringsToLower u fileName) →
      categorizeFile u fileName = "lab_results") ∧
    (¬ (occursIn "lab" (stringsToLower u fileName) ∨
          occursIn "test" (stringsToLower u fileName) ∨
          occursIn "result" (stringsToLower u fileName)) →
      (occursIn "insurance" (stringsToLower u fileName) ∨
          occursIn "card" (stringsToLower u fileName) ∨
          occursIn "coverage" (stringsToLower u fileName) →
        categorizeFile u fileName = "insurance") ∧
      (¬ (occursIn "insurance" (stringsToLower u fileName) ∨
            occursIn "card" (stringsToLower u fileName) ∨
            occursIn "coverage" (stringsToLower u fileName)) →
        (occursIn "prescription" (stringsToLower u fileName) ∨
            occursIn "rx" (stringsToLower u fileName) ∨
            occursIn "medication" (stringsToLower u fileName) →
          categorizeFile u fileName = "prescription") ∧
        (¬ (occursIn "prescription" (stringsToLower u fileName) ∨
              occursIn "rx" (stringsToLower u fileName) ∨
              occursIn "medication" (stringsToLower u fileName)) →
          (occursIn "medical" (stringsToLower u fileName) ∨
              occursIn "history" (stringsToLower u fileName) ∨
              occursIn "record" (stringsToLower u fileName) →
            categorizeFile u fileName = "medical_records") ∧
          (¬ (occursIn "medical" (stringsToLower u fileName) ∨
                occursIn "history" (stringsToLower u fileName) ∨
                occursIn "record" (stringsToLower u fileName)) →
            categorizeFile u fileName = "other")))) ∧
    (∀ other : String, stringsToLower u other = stringsToLower u fileName →
      categorizeFile u other = categorizeFile u fileName) ∧
    categorizeFile u "Lab_Insurance.pdf" = "lab_results" ∧
    categorizeFile u "LAB_INSURANCE.PDF" = categorizeFile u "lab_insurance.pdf" ∧
    categorizeFile u "Insurance_Card.png" = "insurance" ∧
    categorizeFile u "Rx-2024.txt" = "prescription" ∧
    categorizeFile u "History.doc" = "medical_records" ∧
    categorizeFile u "scan.pdf" = "other" := by
  refine ⟨?_, ?_, ?_, fun other h => ?_, ?_, ?_, ?_, ?_, ?_, ?_⟩
  · unfold categorizeFile
    simp only []
    split_ifs <;> simp
  · simp only [← stringsContains_iff]
    unfold categorizeFile
    simp only []
    generalize stringsContains (stringsToLower u fileName) "lab" = a1
    generalize stringsContains (stringsToLower u fileName) "test" = a2
    generalize stringsContains (stringsToLower u fileName) "result" = a3
    generalize stringsContains (stringsToLower u fileName) "insurance" = b1
    generalize stringsContains (stringsToLower u fileName) "card" = b2
    generalize stringsContains (stringsToLower u fileName) "coverage" = b3
    generalize stringsContains (stringsToLower u fileName) "prescription" = c1
    generalize stringsContains (stringsToLower u fileName) "rx" = c2
    generalize stringsContains (stringsToLower u fileName) "medication" = c3
    generalize stringsContains (stringsToLower u fileName) "medical" = d1
    generalize stringsContains (stringsToLower u fileName) "history" = d2
    generalize stringsContains (stringsToLower u fileName) "record" = d3
    cases a1 <;> cases a2 <;> cases a3 <;> simp
  · simp only [← stringsContains_iff]
    unfold categorizeFile
    simp only []
    generalize stringsContains (stringsToLower u fileName) "lab" = a1
    generalize stringsContains (stringsToLower u fileName) "test" = a2
    generalize stringsContains (stringsToLower u fileName) "result" = a3
    generalize stringsContains (stringsToLower u fileName) "insurance" = b1
    generalize stringsContains (stringsToLower u fileName) "card" = b2
    generalize stringsContains (stringsToLower u fileName) "coverage" = b3
    generalize stringsContains (stringsToLower u fileName) "prescription" = c1
    generalize stringsContains (stringsToLower u fileName) "rx" = c2
    generalize stringsContains (stringsToLower u fileName) "medication" = c3
    generalize stringsContains (stringsToLower u fileName) "medical" = d1
    generalize stringsContains (stringsToLower u fileName) "history" = d2
    generalize stringsContains (stringsToLower u fileName) "record" = d3
    cases a1 <;> cases a2 <;> cases a3 <;> simp
    cases b1 <;> cases b2 <;> cases b3 <;> simp
    cases c1 <;> cases c2 <;> cases c3 <;> simp
    cases d1 <;> cases d2 <;> cases d3 <;> simp
  · unfold categorizeFile
    rw [h]
  · simp [categorizeFile, stringsToLower, u.ascii, stringsContains, containsList, hasPrefixList]
  · simp [categorizeFile, stringsToLower, u.ascii, stringsContains, containsList, hasPrefixList]
  · simp [categorizeFile, stringsToLower, u.ascii, stringsContains, containsList, hasPrefixList]
  · simp [categorizeFile, stringsToLower, u.ascii, stringsContains, containsList, hasPrefixList]
  · simp [categorizeFile, stringsToLower, u.ascii, stringsContains, containsList, hasPrefixList]
  · simp [categorizeFile, stringsToLower, u.ascii, stringsContains, containsList, hasPrefixList]

/-! ## Storage keys -/

theorem s3KeyFor_eq (category patientID fileID fileName : String) :
    s3KeyFor category patientID fileID fileName =
      "medical-files/" ++ category ++ "/" ++ patientID ++ "/" ++ fileID ++
        filepathExt fileName := rfl

theorem s3KeyFor_token_inj (category owner token1 token2 fileName1 fileName2 : String)
    (hlen : token1.length = token2.length)
    (h : s3KeyFor category owner token1 fileName1 = s3KeyFor category owner token2 fileName2) :
    token1 = token2 := by
  have hd := congrArg String.data h
  simp only [s3KeyFor_eq, String.data_append, List.append_assoc, List.append_cancel_left_eq]
    at hd
  exact String.ext (List.append_inj hd hlen).1

theorem uploadFileToS3_ok (g : Gateway) (uuidNew : String) (putErr : Option String)
    (file : Except String (List Nat)) (fileName contentType patientID category key : String)
    (calls : List Call)
    (h : uploadFileToS3 g uuidNew putErr file fileName contentType patientID category
      = (.ok key, calls)) :
    g.client = true ∧ g.bucket ≠ "" ∧ putErr = none ∧
    key = s3KeyFor category patientID uuidNew fileName ∧
    ∃ fileBytes, file = .ok fileBytes ∧
      calls = [Call.readAll, Call.putObject
        { Bucket := g.bucket, Key := key, Body := fileBytes, ContentType := contentType,
          ContentLength := fileBytes.length, ServerSideEncryption := "AES256",
          Metadata := [("patient-id", patientID), ("category", category),
            ("original-name", fileName)] }] := by
  unfold uploadFileToS3 at h
  by_cases hc : g.client = false
  · simp [hc] at h
  by_cases hb : g.bucket = ""
  · simp [hc, hb] at h
  simp only [hc, hb, if_false] at h
  cases file with
  | error e => simp at h
  | ok fileBytes =>
    cases putErr with
    | some e => simp at h
    | none =>
      simp only [Prod.mk.injEq, Except.ok.injEq] at h
      obtain ⟨rfl, rfl⟩ := h
      exact ⟨by simpa using hc, hb, rfl, rfl, fileBytes, rfl, rfl⟩

theorem uploadFileToS3_unconfigured (g : Gateway) (uuidNew : String)
    (putErr : Option String) (file : Except String (List Nat))
    (fileName contentType patientID category : String)
    (hg : g.client = false ∨ g.bucket = "") :
    ∃ err : String,
      (uploadFileToS3 g uuidNew putErr file fileName contentType patientID category).1 =
        .error err ∧
      (uploadFileToS3 g uuidNew putErr file fileName contentType patientID category).2 = [] := by
  unfold uploadFileToS3
  rcases hg with hg | hg
  · exact ⟨"S3 client not initialized", by simp [hg]⟩
  · by_cases hc : g.client = false
    · exact ⟨"S3 client not initialized", by simp [hc]⟩
    · exact ⟨"AWS_S3_BUCKET environment variable not set", by simp [hc, hg]⟩

theorem uploadFileToS3_calls_configured (g : Gateway) (uuidNew : String)
    (putErr : Option String) (file : Except String (List Nat))
    (fileName contentType patientID category : String)
    (hc : g.client = true) (hb : g.bucket ≠ "") :
    Call.readAll ∈
      (uploadFileToS3 g uuidNew putErr file fileName contentType patientID category).2 ∧
    ∀ fileBytes, file = .ok fileBytes →
      Call.putObject
        { Bucket := g.bucket, Key := s3KeyFor category patientID uuidNew fileName,
          Body := fileBytes, ContentType := contentType,
          ContentLength := fileBytes.length, ServerSideEncryption := "AES256",
          Metadata := [("patient-id", patientID), ("category", category),
            ("original-name", fileName)] } ∈
        (uploadFileToS3 g uuidNew putErr file fileName contentType patientID category).2 := by
  unfold uploadFileToS3
  simp only [hc, hb, if_false, Bool.true_eq_false]
  cases file with
  | error e => exact ⟨by simp, fun fileBytes hfb => by cases hfb⟩
  | ok bytes =>
    cases putErr with
    | some e => exact ⟨by simp, fun fileBytes hfb => by cases hfb; simp⟩
    | none => exact ⟨by simp, fun fileBytes hfb => by cases hfb; simp⟩

/-- C3: storage keys built for the same category and owner from two distinct
unique tokens of equal length differ, whatever the two filenames; so do the
keys two successful runs of `uploadFileToS3` return, and repeated uploads of
one filename by one owner with pairwise distinct 36-character tokens get
pairwise distinct keys. -/
theorem storage_keys_distinct (category owner token1 token2 fileName1 fileName2 : String)
    (hlen : token1.length = token2.length) (hne : token1 ≠ token2) :
    s3KeyFor category owner token1 fileName1 ≠ s3KeyFor category owner token2 fileName2 ∧
    (∀ (g1 g2 : Gateway) (p1 p2 : Option String) (file1 file2 : Except String (List Nat))
        (type1 type2 key1 key2 : String) (calls1 calls2 : List Call),
      uploadFileToS3 g1 token1 p1 file1 fileName1 type1 owner category = (.ok key1, calls1) →
      uploadFileToS3 g2 token2 p2 file2 fileName2 type2 owner category = (.ok key2, calls2) →
      key1 ≠ key2) ∧
    (∀ (tokens : List String) (fileName : String), tokens.Nodup →
      (∀ t ∈ tokens, t.length = 36) →
      (tokens.map fun t => s3KeyFor category owner t fileName).Nodup) := by
  refine ⟨fun h => hne (s3KeyFor_token_inj _ _ _ _ _ _ hlen h), ?_, ?_⟩
  · intro g1 g2 p1 p2 file1 file2 type1 type2 key1 key2 calls1 calls2 h1 h2 h
    have e1 := (uploadFileToS3_ok _ _ _ _ _ _ _ _ _ _ h1).2.2.2.1
    have e2 := (uploadFileToS3_ok _ _ _ _ _ _ _ _ _ _ h2).2.2.2.1
    rw [e1, e2] at h
    exact hne (s3KeyFor_token_inj _ _ _ _ _ _ hlen h)
  · intro tokens fileName hnd hl
    refine List.Nodup.map_on (fun x hx y hy hxy => ?_) hnd
    exact s3KeyFor_token_inj _ _ _ _ _ _ ((hl x hx).trans (hl y hy).symm) hxy

/-- Witness of C3 at two UUID strings and two filenames. -/
theorem storage_keys_distinct_witness :
    s3KeyFor "lab_results" "patient-1" "123e4567-e89b-12d3-a456-426614174000" "lab.pdf" ≠
      s3KeyFor "lab_results" "patient-1" "123e4567-e89b-12d3-a456-426614174001" "lab.PDF" :=
  (storage_keys_distinct "lab_results" "patient-1" "123e4567-e89b-12d3-a456-426614174000"
    "123e4567-e89b-12d3-a456-426614174001" "lab.pdf" "lab.PDF" (by decide) (by decide)).1

/-! ## Upload handler -/

theorem maxFileSize_eq : maxFileSize = 10485760 := by decide

theorem uploadMedicalFile_passed (u : CaseMap) (g : Gateway) (w : UploadWorld)
    (table : List MedicalFileRow) (req : UploadRequest) (header : FileHeader)
    (file : Except String (List Nat)) (contentType : String)
    (hid : req.patient_id ≠ "") (hname : req.patient_name ≠ "")
    (hfile : req.file = some (header, file)) (hsize : header.Size ≤ maxFileSize)
    (hvalid : validateFileType u header.Filename = (contentType, true)) :
    uploadMedicalFile u g w table req =
      match uploadFileToS3 g w.uuidKey w.putErr file header.Filename contentType
          req.patient_id (categorizeFile u header.Filename) with
      | (.error err, calls) =>
        ⟨⟨500, .error "Failed to upload file"⟩, table, calls, ["S3 upload error: " ++ err]⟩
      | (.ok s3Key, calls) =>
        match w.insertErr with
        | some err =>
          ⟨⟨500, .error "Failed to save file metadata"⟩, table,
            calls ++ [Call.sql insertFileQuery
              [.str w.uuidRow, .str req.patient_id, .str req.patient_name,
                .str header.Filename, .str contentType, .int header.Size, .str s3Key,
                .str (categorizeFile u header.Filename), .time w.now]],
            ["Database error: " ++ err]⟩
        | none =>
          ⟨⟨201, .uploaded
              { FileID := w.uuidRow, FileName := header.Filename, FileSize := header.Size,
                S3Key := s3Key, Category := categorizeFile u header.Filename,
                UploadedAt := w.now, Message := "File uploaded successfully" }⟩,
            table ++ [⟨w.uuidRow, req.patient_id, req.patient_name, header.Filename,
              contentType, header.Size, s3Key, categorizeFile u header.Filename, w.now⟩],
            calls ++ [Call.sql insertFileQuery
              [.str w.uuidRow, .str req.patient_id, .str req.patient_name,
                .str header.Filename, .str contentType, .int header.Size, .str s3Key,
                .str (categorizeFile u header.Filename), .time w.now]],
            []⟩ := by
  unfold uploadMedicalFile
  simp only [hid, hname, or_self, if_false, hfile, not_lt.2 hsize, hvalid]
  cases hup : uploadFileToS3 g w.uuidKey w.putErr file header.Filename contentType
      req.patient_id (categorizeFile u header.Filename) with
  | mk res calls =>
    cases res with
    | error err => simp
    | ok s3Key =>
      cases hins : w.insertErr <;> simp [scanMedicalFile]

theorem uploadMedicalFile_rejected (u : CaseMap) (g : Gateway) (w : UploadWorld)
    (table : List MedicalFileRow) (req : UploadRequest) (header : FileHeader)
    (file : Except String (List Nat))
    (hfile : req.file = some (header, file))
    (hbad : header.Size > maxFileSize ∨ (validateFileType u header.Filename).2 = false) :
    (uploadMedicalFile u g w table req).response.status = 400 ∧
    (uploadMedicalFile u g w table req).calls = [] ∧
    (uploadMedicalFile u g w table req).table = table := by
  unfold uploadMedicalFile
  simp only []
  split_ifs with h1
  · simp
  · simp only [hfile]
    by_cases hs : header.Size > maxFileSize
    · simp [hs]
    · have hv : (validateFileType u header.Filename).2 = false := by
        rcases hbad with h | h
        · exact absurd h hs
        · exact h
      cases hvt : validateFileType u header.Filename with
      | mk ct valid =>
        rw [hvt] at hv
        simp only [] at hv
        subst hv
        simp [hs]

theorem uploadMedicalFile_created (u : CaseMap) (g : Gateway) (w : UploadWorld)
    (table : List MedicalFileRow) (req : UploadRequest)
    (h : (uploadMedicalFile u g w table req).response.status = 201) :
    ∃ (header : FileHeader) (fileBytes : List Nat) (contentType : String),
      req.patient_id ≠ "" ∧ req.patient_name ≠ "" ∧
      req.file = some (header, .ok fileBytes) ∧ header.Size ≤ maxFileSize ∧
      validateFileType u header.Filename = (contentType, true) ∧
      uploadFileToS3 g w.uuidKey w.putErr (.ok fileBytes) header.Filename contentType
          req.patient_id (categorizeFile u header.Filename) =
        (.ok (s3KeyFor (categorizeFile u header.Filename) req.patient_id w.uuidKey
            header.Filename),
          [Call.readAll, Call.putObject
            { Bucket := g.bucket,
              Key := s3KeyFor (categorizeFile u header.Filename) req.patient_id w.uuidKey
                header.Filename,
              Body := fileBytes, ContentType := contentType,
              ContentLength := fileBytes.length, ServerSideEncryption := "AES256",
              Metadata := [("patient-id", req.patient_id),
                ("category", categorizeFile u header.Filename),
                ("original-name", header.Filename)] }]) ∧
      w.insertErr = none := by
  by_cases h1 : req.patient_id = "" ∨ req.patient_name = ""
  · unfold uploadMedicalFile at h
    simp [h1] at h
  have hid : req.patient_id ≠ "" := fun e => h1 (Or.inl e)
  have hname : req.patient_name ≠ "" := fun e => h1 (Or.inr e)
  cases hf : req.file with
  | none =>
    unfold uploadMedicalFile at h
    simp [h1, hf] at h
  | some hd =>
    obtain ⟨header, file⟩ := hd
    by_cases hs : header.Size > maxFileSize
    · have := (uploadMedicalFile_rejected u g w table req header file hf (Or.inl hs)).1
      omega
    cases hvt : validateFileType u header.Filename with
    | mk contentType valid =>
      cases valid with
      | false =>
        have := (uploadMedicalFile_rejected u g w table req header file hf
          (Or.inr (by rw [hvt]))).1
        omega
      | true =>
        rw [uploadMedicalFile_passed u g w table req header file contentType hid hname hf
          (not_lt.1 hs) hvt] at h
        cases hup : uploadFileToS3 g w.uuidKey w.putErr file header.Filename contentType
            req.patient_id (categorizeFile u header.Filename) with
        | mk res calls =>
          cases res with
          | error err => simp [hup] at h
          | ok s3Key =>
            cases hins : w.insertErr with
            | some err => simp [hup, hins] at h
            | none =>
              obtain ⟨-, -, -, hkey, fileBytes, hfb, hcalls⟩ :=
                uploadFileToS3_ok _ _ _ _ _ _ _ _ _ _ hup
              subst hfb
              refine ⟨header, fileBytes, contentType, hid, hname, rfl, not_lt.1 hs, hvt, ?_,
                rfl⟩
              rw [hup, hcalls, hkey]

theorem filepathExt_no_dot_at_all (fileName : String) (h : '.' ∉ fileName.data) :
    filepathExt fileName = "" :=
  filepathExt_no_dot fileName [] fileName.data rfl h (Or.inl rfl)

/-- C4: when `uploadMedicalFile` answers 201, the storage key is
`"medical-files/" ++ category ++ "/" ++ ownerID ++ "/" ++ uniqueToken ++
extension`, with the extension of the original filename as given; it is the
key `uploadFileToS3` returned, the key of the one `PutObject` call, the key in
the inserted metadata row and in the INSERT arguments, and the key of the
response. Every successful `uploadFileToS3` returns a key of this form after
one `PutObject` under that key; the extension is the suffix from the last dot
of the last path element, letter case kept, and empty without a dot. -/
theorem storage_key_format (u : CaseMap) (g : Gateway) (w : UploadWorld)
    (table : List MedicalFileRow) (req : UploadRequest)
    (h : (uploadMedicalFile u g w table req).response.status = 201) :
    (∃ (header : FileHeader) (fileBytes : List Nat) (contentType key : String)
        (input : PutObjectInput),
      req.file = some (header, .ok fileBytes) ∧
      key = "medical-files/" ++ categorizeFile u header.Filename ++ "/" ++ req.patient_id ++
        "/" ++ w.uuidKey ++ filepathExt header.Filename ∧
      (uploadFileToS3 g w.uuidKey w.putErr (.ok fileBytes) header.Filename contentType
        req.patient_id (categorizeFile u header.Filename)).1 = .ok key ∧
      input.Key = key ∧ input.Bucket = g.bucket ∧ input.Body = fileBytes ∧
      (uploadMedicalFile u g w table req).calls =
        [Call.readAll, Call.putObject input,
          Call.sql insertFileQuery
            [.str w.uuidRow, .str req.patient_id, .str req.patient_name,
              .str header.Filename, .str contentType, .int header.Size, .str key,
              .str (categorizeFile u header.Filename), .time w.now]] ∧
      (uploadMedicalFile u g w table req).table =
        table ++ [⟨w.uuidRow, req.patient_id, req.patient_name, header.Filename, contentType,
          header.Size, key, categorizeFile u header.Filename, w.now⟩] ∧
      (uploadMedicalFile u g w table req).response.body = .uploaded
        { FileID := w.uuidRow, FileName := header.Filename, FileSize := header.Size,
          S3Key := key, Category := categorizeFile u header.Filename, UploadedAt := w.now,
          Message := "File uploaded successfully" }) ∧
    (∀ (uuidNew : String) (putErr : Option String) (file : Except String (List Nat))
        (fileName contentType patientID category key : String) (calls : List Call),
      uploadFileToS3 g uuidNew putErr file fileName contentType patientID category =
        (.ok key, calls) →
      key = "medical-files/" ++ category ++ "/" ++ patientID ++ "/" ++ uuidNew ++
        filepathExt fileName ∧
      ∃ input : PutObjectInput, calls = [Call.readAll, Call.putObject input] ∧
        input.Key = key ∧ input.Bucket = g.bucket) ∧
    (∀ (fileName : String) (pre suf : List Char), fileName.data = pre ++ '.' :: suf →
      '.' ∉ suf → '/' ∉ suf → filepathExt fileName = ⟨'.' :: suf⟩) ∧
    (∀ fileName : String, '.' ∉ fileName.data → filepathExt fileName = "") := by
  refine ⟨?_, ?_, fun fileName pre suf h0 h1 h2 => filepathExt_of_dot fileName pre suf h0 h1 h2,
    filepathExt_no_dot_at_all⟩
  · obtain ⟨header, fileBytes, contentType, hid, hname, hfile, hsize, hvalid, hup, hins⟩ :=
      uploadMedicalFile_created u g w table req h
    have heq := uploadMedicalFile_passed u g w table req header (.ok fileBytes) contentType
      hid hname hfile hsize hvalid
    rw [hup] at heq
    simp only [hins] at heq
    refine ⟨header, fileBytes, contentType,
      s3KeyFor (categorizeFile u header.Filename) req.patient_id w.uuidKey header.Filename,
      { Bucket := g.bucket,
        Key := s3KeyFor (categorizeFile u header.Filename) req.patient_id w.uuidKey
          header.Filename,
        Body := fileBytes, ContentType := contentType,
        ContentLength := fileBytes.length, ServerSideEncryption := "AES256",
        Metadata := [("patient-id", req.patient_id),
          ("category", categorizeFile u header.Filename),
          ("original-name", header.Filename)] },
      hfile, s3KeyFor_eq _ _ _ _, ?_, rfl, rfl, rfl, ?_, ?_, ?_⟩
    · rw [hup]
    · rw [heq]; rfl
    · rw [heq]
    · rw [heq]
  · intro uuidNew putErr file fileName contentType patientID category key calls hup
    obtain ⟨-, -, -, hkey, fileBytes, -, hcalls⟩ := uploadFileToS3_ok _ _ _ _ _ _ _ _ _ _ hup
    exact ⟨hkey.trans (s3KeyFor_eq _ _ _ _), _, hcalls, rfl, rfl⟩

/-- Witness of C4: the example upload is answered 201 and its metadata row
carries the key built from category, owner, token and the extension `.PDF`. -/
theorem storage_key_format_witness :
    (uploadMedicalFile asciiCase exampleGateway exampleUploadWorld [] exampleUpload
      ).response.status = 201 ∧
    (uploadMedicalFile asciiCase exampleGateway exampleUploadWorld [] exampleUpload).table =
      [⟨"9b2f0c1e-5d0a-4c3b-8f6e-0a1b2c3d4e5f", "patient-1", "Ada Lovelace",
        "Lab_Insurance.PDF", "application/pdf", 3,
        "medical-files/lab_results/patient-1/123e4567-e89b-12d3-a456-426614174000.PDF",
        "lab_results", 1700000000000000000⟩] ∧
    ∃ (header : FileHeader) (fileBytes : List Nat) (key : String),
      exampleUpload.file = some (header, .ok fileBytes) ∧
      key = "medical-files/" ++ categorizeFile asciiCase header.Filename ++ "/" ++
        exampleUpload.patient_id ++ "/" ++ exampleUploadWorld.uuidKey ++
        filepathExt header.Filename :=
  ⟨by decide, by decide,
    let ⟨header, fileBytes, _, key, _, h1, h2, _⟩ :=
      (storage_key_format asciiCase exampleGateway exampleUploadWorld [] exampleUpload
        (by decide)).1
    ⟨header, fileBytes, key, h1, h2⟩⟩

/-- The validation of the parsed form: for a form with non-empty `patient_id`
and `patient_name` and a file part, a declared size above 10485760 bytes or a
filename that fails `validateFileType` is answered 400 with no call after the
parse and no row inserted; a file of at most 10485760 bytes with an
allow-listed extension is not answered 400: the handler goes on into
`uploadFileToS3`, whose calls open the calls after the parse, and with a
configured gateway the file is read and put under its storage key. -/
theorem upload_validation_gate (u : CaseMap) (g : Gateway) (w : UploadWorld)
    (table : List MedicalFileRow) (req : UploadRequest) (header : FileHeader)
    (file : Except String (List Nat))
    (hid : req.patient_id ≠ "") (hname : req.patient_name ≠ "")
    (hfile : req.file = some (header, file)) :
    (header.Size > 10485760 ∨ (validateFileType u header.Filename).2 = false →
      (uploadMedicalFile u g w table req).response.status = 400 ∧
      (uploadMedicalFile u g w table req).calls = [] ∧
      (uploadMedicalFile u g w table req).table = table) ∧
    (header.Size ≤ 10485760 → (validateFileType u header.Filename).2 = true →
      (uploadMedicalFile u g w table req).response.status ≠ 400 ∧
      (uploadFileToS3 g w.uuidKey w.putErr file header.Filename
          (validateFileType u header.Filename).1 req.patient_id
          (categorizeFile u header.Filename)).2 <+:
        (uploadMedicalFile u g w table req).calls ∧
      (g.client = false ∨ g.bucket = "" →
        (uploadMedicalFile u g w table req).response =
          ⟨500, .error "Failed to upload file"⟩) ∧
      (g.client = true → g.bucket ≠ "" →
        Call.readAll ∈ (uploadMedicalFile u g w table req).calls ∧
        ∀ fileBytes, file = .ok fileBytes →
          ∃ input : PutObjectInput,
            Call.putObject input ∈ (uploadMedicalFile u g w table req).calls ∧
            input.Key = s3KeyFor (categorizeFile u header.Filename) req.patient_id w.uuidKey
              header.Filename ∧
            input.Body = fileBytes)) := by
  refine ⟨fun hbad => ?_, fun hsize hvalid => ?_⟩
  · exact uploadMedicalFile_rejected u g w table req header file hfile
      (by rw [maxFileSize_eq]; exact hbad)
  · have hv : validateFileType u header.Filename =
        ((validateFileType u header.Filename).1, true) := by
      rw [← hvalid]
    have heq := uploadMedicalFile_passed u g w table req header file _ hid hname hfile
      (by rw [maxFileSize_eq]; exact hsize) hv
    cases hup : uploadFileToS3 g w.uuidKey w.putErr file header.Filename
        (validateFileType u header.Filename).1 req.patient_id
        (categorizeFile u header.Filename) with
    | mk res calls =>
      rw [hup] at heq
      have hcalls : calls <+: (uploadMedicalFile u g w table req).calls := by
        rw [heq]
        cases res with
        | error err => exact List.prefix_refl _
        | ok s3Key => cases hins : w.insertErr <;> exact List.prefix_append _ _
      have hstatus : (uploadMedicalFile u g w table req).response.status ≠ 400 := by
        rw [heq]
        cases res with
        | error err => simp
        | ok s3Key => cases hins : w.insertErr <;> simp
      refine ⟨hstatus, hcalls, fun hg => ?_, fun hc hb => ?_⟩
      · have hfail := uploadFileToS3_unconfigured g w.uuidKey w.putErr file header.Filename
          (validateFileType u header.Filename).1 req.patient_id
          (categorizeFile u header.Filename) hg
        rw [hup] at hfail
        obtain ⟨err, herr, -⟩ := hfail
        simp only [] at herr
        subst herr
        rw [heq]
      have hread := uploadFileToS3_calls_configured g w.uuidKey w.putErr file header.Filename
        (validateFileType u header.Filename).1 req.patient_id
        (categorizeFile u header.Filename) hc hb
      rw [hup] at hread
      refine ⟨hcalls.subset hread.1, fun fileBytes hfb => ?_⟩
      exact ⟨_, hcalls.subset (hread.2 fileBytes hfb), rfl, rfl⟩

/-- The validation of the parsed form on the examples: one byte over the
limit is answered 400 with no call after the parse; exactly 10485760 bytes
pass and the file is read. -/
theorem upload_validation_gate_witness :
    ((uploadMedicalFile asciiCase exampleGateway exampleUploadWorld exampleRows
        exampleOversize).response.status = 400 ∧
      (uploadMedicalFile asciiCase exampleGateway exampleUploadWorld exampleRows
        exampleOversize).calls = [] ∧
      (uploadMedicalFile asciiCase exampleGateway exampleUploadWorld exampleRows
        exampleOversize).table = exampleRows) ∧
    (uploadMedicalFile asciiCase exampleGateway exampleUploadWorld exampleRows
        exampleBoundary).response.status ≠ 400 ∧
    Call.readAll ∈ (uploadMedicalFile asciiCase exampleGateway exampleUploadWorld exampleRows
        exampleBoundary).calls :=
  ⟨(upload_validation_gate asciiCase exampleGateway exampleUploadWorld exampleRows
      exampleOversize ⟨"scan.pdf", 10485761⟩ (.error "unexpected EOF")
      (by decide) (by decide) rfl).1 (Or.inl (by decide)),
    ((upload_validation_gate asciiCase exampleGateway exampleUploadWorld exampleRows
      exampleBoundary ⟨"scan.pdf", 10485760⟩ (.error "unexpected EOF")
      (by decide) (by decide) rfl).2 (by decide) (by decide)).1,
    (((upload_validation_gate asciiCase exampleGateway exampleUploadWorld exampleRows
      exampleBoundary ⟨"scan.pdf", 10485760⟩ (.error "unexpected EOF")
      (by decide) (by decide) rfl).2 (by decide) (by decide)).2.2.2 rfl (by decide)).1⟩

theorem uploadMedicalFileRequest_calls (u : CaseMap) (g : Gateway) (w : UploadWorld)
    (table : List MedicalFileRow) (r : UploadHTTPRequest) :
    (uploadMedicalFileRequest u g w table r).calls =
      Call.parseMultipartForm r.bodySize :: (uploadMedicalFile u g w table r.form).calls ∧
    (uploadMedicalFileRequest u g w table r).response =
      (uploadMedicalFile u g w table r.form).response ∧
    (uploadMedicalFileRequest u g w table r).table =
      (uploadMedicalFile u g w table r.form).table :=
  ⟨rfl, rfl, rfl⟩

/-- Counterexample to C5 as stated: an upload whose file part is one byte over
the limit is answered 400, yet the handler has read the whole request body of
10486262 bytes before the size check, through the multipart parse of its
first `c.PostForm`. -/
theorem upload_gate_body_read_counterexample :
    (uploadMedicalFileRequest asciiCase exampleGateway exampleUploadWorld exampleRows
      exampleOversizeRequest).response.status = 400 ∧
    (uploadMedicalFileRequest asciiCase exampleGateway exampleUploadWorld exampleRows
      exampleOversizeRequest).calls = [Call.parseMultipartForm 10486262] ∧
    (uploadMedicalFileRequest asciiCase exampleGateway exampleUploadWorld exampleRows
      exampleOversizeRequest).calls ≠ [] := by
  decide

/-- C5 as amended: for an upload request with non-empty `patient_id` and
`patient_name` and a file part, a declared size above 10485760 bytes or a
filename that fails `validateFileType` is answered 400; the only outside call
made is the multipart parse of the request body, which precedes the check and
has read the body: the file is not read with `io.ReadAll`, nothing is put in
the object store, no statement is sent to the relational store and no row is
inserted. A file of at most 10485760 bytes (so one of exactly that size) with
an allow-listed extension is not answered 400: after the parse the handler
goes on into `uploadFileToS3`, and with a configured gateway the file is read
and put under its storage key. -/
theorem upload_request_gate (u : CaseMap) (g : Gateway) (w : UploadWorld)
    (table : List MedicalFileRow) (r : UploadHTTPRequest) (header : FileHeader)
    (file : Except String (List Nat))
    (hid : r.form.patient_id ≠ "") (hname : r.form.patient_name ≠ "")
    (hfile : r.form.file = some (header, file)) :
    (header.Size > 10485760 ∨ (validateFileType u header.Filename).2 = false →
      (uploadMedicalFileRequest u g w table r).response.status = 400 ∧
      (uploadMedicalFileRequest u g w table r).calls = [Call.parseMultipartForm r.bodySize] ∧
      Call.readAll ∉ (uploadMedicalFileRequest u g w table r).calls ∧
      (∀ input : PutObjectInput,
        Call.putObject input ∉ (uploadMedicalFileRequest u g w table r).calls) ∧
      (∀ (text : String) (args : List SqlArg),
        Call.sql text args ∉ (uploadMedicalFileRequest u g w table r).calls) ∧
      (uploadMedicalFileRequest u g w table r).table = table) ∧
    (header.Size ≤ 10485760 → (validateFileType u header.Filename).2 = true →
      (uploadMedicalFileRequest u g w table r).response.status ≠ 400 ∧
      Call.parseMultipartForm r.bodySize ::
          (uploadFileToS3 g w.uuidKey w.putErr file header.Filename
            (validateFileType u header.Filename).1 r.form.patient_id
            (categorizeFile u header.Filename)).2 <+:
        (uploadMedicalFileRequest u g w table r).calls ∧
      (g.client = false ∨ g.bucket = "" →
        (uploadMedicalFileRequest u g w table r).response =
          ⟨500, .error "Failed to upload file"⟩) ∧
      (g.client = true → g.bucket ≠ "" →
        Call.readAll ∈ (uploadMedicalFileRequest u g w table r).calls ∧
        ∀ fileBytes, file = .ok fileBytes →
          ∃ input : PutObjectInput,
            Call.putObject input ∈ (uploadMedicalFileRequest u g w table r).calls ∧
            input.Key = s3KeyFor (categorizeFile u header.Filename) r.form.patient_id
              w.uuidKey header.Filename ∧
            input.Body = fileBytes)) := by
  obtain ⟨hcalls, hresp, htable⟩ := uploadMedicalFileRequest_calls u g w table r
  obtain ⟨hbad, hgood⟩ := upload_validation_gate u g w table r.form header file hid hname hfile
  refine ⟨fun h => ?_, fun hsize hvalid => ?_⟩
  · obtain ⟨h400, hnone, hsame⟩ := hbad h
    rw [hcalls, hresp, htable, hnone]
    exact ⟨h400, rfl, by simp, fun input => by simp, fun text args => by simp, hsame⟩
  · obtain ⟨hstatus, hprefix, hunconf, hconf⟩ := hgood hsize hvalid
    rw [hcalls, hresp]
    refine ⟨hstatus, ?_, hunconf, fun hc hb => ?_⟩
    · obtain ⟨rest, hrest⟩ := hprefix
      exact ⟨rest, by rw [List.cons_append, hrest]⟩
    · obtain ⟨hread, hput⟩ := hconf hc hb
      refine ⟨List.mem_cons_of_mem _ hread, fun fileBytes hfb => ?_⟩
      obtain ⟨input, hin, hk, hbody⟩ := hput fileBytes hfb
      exact ⟨input, List.mem_cons_of_mem _ hin, hk, hbody⟩

/-- Witness of C5 as amended: one byte over the limit is answered 400 with the
parse of the body as only call; exactly 10485760 bytes pass the check and the
file is read. -/
theorem upload_request_gate_witness :
    ((uploadMedicalFileRequest asciiCase exampleGateway exampleUploadWorld exampleRows
        exampleOversizeRequest).response.status = 400 ∧
      (uploadMedicalFileRequest asciiCase exampleGateway exampleUploadWorld exampleRows
        exampleOversizeRequest).calls = [Call.parseMultipartForm 10486262]) ∧
    (uploadMedicalFileRequest asciiCase exampleGateway exampleUploadWorld exampleRows
        exampleBoundaryRequest).response.status ≠ 400 ∧
    Call.readAll ∈ (uploadMedicalFileRequest asciiCase exampleGateway exampleUploadWorld
        exampleRows exampleBoundaryRequest).calls :=
  ⟨⟨((upload_request_gate asciiCase exampleGateway exampleUploadWorld exampleRows
        exampleOversizeRequest ⟨"scan.pdf", 10485761⟩ (.error "unexpected EOF")
        (by decide) (by decide) rfl).1 (Or.inl (by decide))).1,
      ((upload_request_gate asciiCase exampleGateway exampleUploadWorld exampleRows
        exampleOversizeRequest ⟨"scan.pdf", 10485761⟩ (.error "unexpected EOF")
        (by decide) (by decide) rfl).1 (Or.inl (by decide))).2.1⟩,
    ((upload_request_gate asciiCase exampleGateway exampleUploadWorld exampleRows
      exampleBoundaryRequest ⟨"scan.pdf", 10485760⟩ (.error "unexpected EOF")
      (by decide) (by decide) rfl).2 (by decide) (by decide)).1,
    (((upload_request_gate asciiCase exampleGateway exampleUploadWorld exampleRows
      exampleBoundaryRequest ⟨"scan.pdf", 10485760⟩ (.error "unexpected EOF")
      (by decide) (by decide) rfl).2 (by decide) (by decide)).2.2.2 rfl (by decide)).1⟩

/-! ## Booking -/

/-- C6: for a bound request whose `date_time` parses to `t`, the handler
answers 400 exactly when `t` is strictly before the current instant, then
with the message "Cannot book appointments in the past", no store call and no
row inserted; otherwise its one store call is the INSERT of the request's
fields with status "confirmed", whatever the table holds: no other row is
read, and response and calls are the same over every content of the table. -/
theorem createAppointment_past_check (w : AppointmentWorld) (table : List Appointment)
    (req : CreateAppointmentRequest) (t : Time) (hparse : w.parse req.DateTime = some t) :
    ((createAppointment w table (.ok req)).response.status = 400 ↔ t < w.now) ∧
    (t < w.now →
      (createAppointment w table (.ok req)).response =
        ⟨400, .error "Cannot book appointments in the past"⟩ ∧
      (createAppointment w table (.ok req)).calls = [] ∧
      (createAppointment w table (.ok req)).table = table) ∧
    (w.now ≤ t →
      (createAppointment w table (.ok req)).calls =
        [Call.sql insertAppointmentQuery
          [.str w.uuidNew, .str req.DoctorID, .str req.PatientName, .str req.PatientEmail,
            .time t, .int req.Duration, .str "confirmed", .time w.createdAt]] ∧
      (w.insertErr = none →
        (createAppointment w table (.ok req)).response =
          ⟨201, .appointment ⟨w.uuidNew, req.DoctorID, req.PatientName, req.PatientEmail, t,
            req.Duration, "confirmed", w.createdAt⟩⟩ ∧
        (createAppointment w table (.ok req)).table =
          table ++ [⟨w.uuidNew, req.DoctorID, req.PatientName, req.PatientEmail, t,
            req.Duration, "confirmed", w.createdAt⟩]) ∧
      (w.insertErr ≠ none →
        (createAppointment w table (.ok req)).response =
          ⟨500, .error "Failed to create appointment"⟩ ∧
        (createAppointment w table (.ok req)).table = table)) ∧
    (∀ table' : List Appointment,
      (createAppointment w table' (.ok req)).response =
        (createAppointment w table (.ok req)).response ∧
      (createAppointment w table' (.ok req)).calls =
        (createAppointment w table (.ok req)).calls) := by
  refine ⟨?_, fun hlt => ?_, fun hle => ?_, fun table' => ?_⟩
  · unfold createAppointment
    simp only [hparse]
    by_cases hlt : t < w.now
    · simp [hlt]
    · cases hins : w.insertErr <;> simp [hlt]
  · unfold createAppointment
    simp [hparse, hlt]
  · have hlt : ¬ t < w.now := not_lt.2 hle
    unfold createAppointment
    simp only [hparse, hlt, if_false]
    cases hins : w.insertErr <;> simp
  · unfold createAppointment
    simp only [hparse]
    by_cases hlt : t < w.now
    · simp [hlt]
    · cases hins : w.insertErr <;> simp [hlt]

/-- Witness of C6: a booking for 2030 is inserted as confirmed, one for 2020
is answered 400. -/
theorem createAppointment_past_check_witness :
    ((createAppointment exampleAppointmentWorld [] (.ok examplePastBooking)).response =
        ⟨400, .error "Cannot book appointments in the past"⟩ ∧
      (createAppointment exampleAppointmentWorld [] (.ok examplePastBooking)).calls = [] ∧
      (createAppointment exampleAppointmentWorld [] (.ok examplePastBooking)).table = []) ∧
    (createAppointment exampleAppointmentWorld [] (.ok exampleBooking)).calls =
      [Call.sql insertAppointmentQuery
        [.str exampleAppointmentWorld.uuidNew, .str exampleBooking.DoctorID,
          .str exampleBooking.PatientName, .str exampleBooking.PatientEmail,
          .time 1893492000000000000, .int exampleBooking.Duration, .str "confirmed",
          .time exampleAppointmentWorld.createdAt]] :=
  ⟨(createAppointment_past_check exampleAppointmentWorld [] examplePastBooking
      1577872800000000000 (by decide)).2.1 (by decide),
    ((createAppointment_past_check exampleAppointmentWorld [] exampleBooking
      1893492000000000000 (by decide)).2.2.1 (by decide)).1⟩

/-! ## Deletion -/

theorem deleteMedicalFile_found (g : Gateway) (w : DeleteWorld) (table : List MedicalFileRow)
    (fileID : String) (found : MedicalFileRow)
    (hfind : table.find? (fun r => r.id = fileID) = some found)
    (hsel : w.selectErr = none) (hexec : w.execErr = none) :
    (deleteMedicalFile g w table fileID).response =
      ⟨200, .deleted "File deleted successfully" fileID⟩ ∧
    (deleteMedicalFile g w table fileID).table = table.filter (fun r => r.id ≠ fileID) ∧
    (deleteMedicalFile g w table fileID).calls =
      Call.sql selectFileQuery [.str fileID] ::
        (if g.client = true ∧ g.bucket ≠ "" then [Call.deleteObject g.bucket found.s3_key]
          else []) ++ [Call.sql deleteFileQuery [.str fileID]] := by
  unfold deleteMedicalFile
  simp only [hsel, hfind, hexec, scanMedicalFile]
  by_cases hc : g.client = true
  · by_cases hb : g.bucket = ""
    · simp [hc, hb]
    · cases hd : w.deleteObjectErr <;> simp [hc, hb]
  · simp [hc]

/-- C7: when a metadata row with the file id exists and the two store
statements are answered, then for every outcome of the object deletion the
handler answers 200 carrying the file id, no row with that id is left, and
the other rows are the same, in the same order. With a configured gateway the
one object deletion is for the storage key of the row the SELECT returned
(the row itself when ids are unique); with an unconfigured gateway there is
none; and the object deletion's outcome changes neither response nor table. -/
theorem deleteMedicalFile_existing (g : Gateway) (w : DeleteWorld)
    (table : List MedicalFileRow) (fileID : String) (row : MedicalFileRow)
    (hrow : row ∈ table) (hid : row.id = fileID)
    (hsel : w.selectErr = none) (hexec : w.execErr = none) :
    (deleteMedicalFile g w table fileID).response =
      ⟨200, .deleted "File deleted successfully" fileID⟩ ∧
    (∀ r ∈ (deleteMedicalFile g w table fileID).table, r.id ≠ fileID) ∧
    (deleteMedicalFile g w table fileID).table = table.filter (fun r => r.id ≠ fileID) ∧
    (∀ r : MedicalFileRow, r.id ≠ fileID →
      (r ∈ (deleteMedicalFile g w table fileID).table ↔ r ∈ table)) ∧
    (∃ found : MedicalFileRow, found ∈ table ∧ found.id = fileID ∧
      table.find? (fun r => r.id = fileID) = some found ∧
      ((∀ r ∈ table, r.id = fileID → r = row) → found = row) ∧
      (g.client = true → g.bucket ≠ "" →
        (deleteMedicalFile g w table fileID).calls =
          [Call.sql selectFileQuery [.str fileID], Call.deleteObject g.bucket found.s3_key,
            Call.sql deleteFileQuery [.str fileID]]) ∧
      (g.client = false ∨ g.bucket = "" →
        (deleteMedicalFile g w table fileID).calls =
          [Call.sql selectFileQuery [.str fileID],
            Call.sql deleteFileQuery [.str fileID]])) ∧
    (∀ outcome : Option String,
      (deleteMedicalFile g { w with deleteObjectErr := outcome } table fileID).response =
        (deleteMedicalFile g w table fileID).response ∧
      (deleteMedicalFile g { w with deleteObjectErr := outcome } table fileID).table =
        (deleteMedicalFile g w table fileID).table ∧
      (deleteMedicalFile g { w with deleteObjectErr := outcome } table fileID).calls =
        (deleteMedicalFile g w table fileID).calls) := by
  have hsome : ∃ found, table.find? (fun r => r.id = fileID) = some found := by
    cases hf : table.find? (fun r => r.id = fileID) with
    | none =>
      have := List.find?_eq_none.1 hf row hrow
      simp [hid] at this
    | some found => exact ⟨found, rfl⟩
  obtain ⟨found, hfind⟩ := hsome
  have hmem : found ∈ table := List.mem_of_find?_eq_some hfind
  have hfid : found.id = fileID := by simpa using List.find?_some hfind
  obtain ⟨hresp, htable, hcalls⟩ := deleteMedicalFile_found g w table fileID found hfind hsel hexec
  refine ⟨hresp, ?_, htable, ?_, ⟨found, hmem, hfid, hfind, fun huniq => huniq found hmem hfid,
    fun hc hb => ?_, fun hg => ?_⟩, fun outcome => ?_⟩
  · intro r hr
    rw [htable] at hr
    simpa using (List.mem_filter.1 hr).2
  · intro r hr
    rw [htable, List.mem_filter]
    simp [hr]
  · rw [hcalls]; simp [hc, hb]
  · rw [hcalls]
    rcases hg with hg | hg <;> simp [hg]
  · obtain ⟨hresp', htable', hcalls'⟩ := deleteMedicalFile_found g
      { w with deleteObjectErr := outcome } table fileID found hfind hsel hexec
    exact ⟨hresp'.trans hresp.symm, htable'.trans htable.symm, hcalls'.trans hcalls.symm⟩

/-- Witness of C7: deleting `file-1` from the two example rows while the
object deletion fails leaves the second row and answers 200. -/
theorem deleteMedicalFile_existing_witness :
    (deleteMedicalFile exampleGateway exampleDeleteWorld exampleRows "file-1").response =
      ⟨200, .deleted "File deleted successfully" "file-1"⟩ ∧
    (deleteMedicalFile exampleGateway exampleDeleteWorld exampleRows "file-1").table =
      exampleRows.filter (fun r => r.id ≠ "file-1") :=
  ⟨(deleteMedicalFile_existing exampleGateway exampleDeleteWorld exampleRows "file-1"
      ⟨"file-1", "patient-1", "Ada Lovelace", "lab.pdf", "application/pdf", 3,
        "medical-files/lab_results/patient-1/123e4567-e89b-12d3-a456-426614174000.pdf",
        "lab_results", 1700000000000000000⟩ (by decide) rfl rfl rfl).1,
    (deleteMedicalFile_existing exampleGateway exampleDeleteWorld exampleRows "file-1"
      ⟨"file-1", "patient-1", "Ada Lovelace", "lab.pdf", "application/pdf", 3,
        "medical-files/lab_results/patient-1/123e4567-e89b-12d3-a456-426614174000.pdf",
        "lab_results", 1700000000000000000⟩ (by decide) rfl rfl rfl).2.2.1⟩

/-- C8: when no metadata row has the file id and the SELECT is answered, the
handler answers 404 "File not found", its only outside call is that SELECT (no
object deletion, no DELETE statement), and the table is unchanged. -/
theorem deleteMedicalFile_missing (g : Gateway) (w : DeleteWorld)
    (table : List MedicalFileRow) (fileID : String)
    (hno : ∀ r ∈ table, r.id ≠ fileID) (hsel : w.selectErr = none) :
    (deleteMedicalFile g w table fileID).response = ⟨404, .error "File not found"⟩ ∧
    (deleteMedicalFile g w table fileID).calls = [Call.sql selectFileQuery [.str fileID]] ∧
    (∀ bucket key : String,
      Call.deleteObject bucket key ∉ (deleteMedicalFile g w table fileID).calls) ∧
    (deleteMedicalFile g w table fileID).table = table := by
  have hfind : table.find? (fun r => r.id = fileID) = none := by
    rw [List.find?_eq_none]
    intro r hr
    simpa using hno r hr
  unfold deleteMedicalFile
  simp [hsel, hfind]

/-- Witness of C8: deleting an unknown id from the two example rows. -/
theorem deleteMedicalFile_missing_witness :
    (deleteMedicalFile exampleGateway exampleDeleteWorld exampleRows "file-9").response =
      ⟨404, .error "File not found"⟩ ∧
    (deleteMedicalFile exampleGateway exampleDeleteWorld exampleRows "file-9").table =
      exampleRows :=
  ⟨(deleteMedicalFile_missing exampleGateway exampleDeleteWorld exampleRows "file-9"
      (by decide) rfl).1,
    (deleteMedicalFile_missing exampleGateway exampleDeleteWorld exampleRows "file-9"
      (by decide) rfl).2.2.2⟩

/-! ## Listing -/

theorem scanMedicalFiles_map_some (g : Gateway)
    (presign : String → String → Duration → Except String String) :
    ∀ rows : List MedicalFileRow,
      scanMedicalFiles g presign (rows.map some) =
        (some (rows.map fun r => (withPresignedURL g presign (scanMedicalFile r)).1),
          (rows.map fun r => (withPresignedURL g presign (scanMedicalFile r)).2.1).flatten,
          (rows.map fun r => (withPresignedURL g presign (scanMedicalFile r)).2.2).flatten)
  | [] => rfl
  | r :: rows => by
    simp only [List.map_cons, scanMedicalFiles, scanMedicalFiles_map_some g presign rows,
      Option.map_some', List.flatten_cons]

theorem getMedicalFiles_of_rows (g : Gateway)
    (presign : String → String → Duration → Except String String)
    (store : String → List SqlArg → Except String (List (Option MedicalFileRow)))
    (patientID category : String) (rows : List MedicalFileRow)
    (hstore : store (medicalFilesQuery patientID category).1
      (medicalFilesQuery patientID category).2 = .ok (rows.map some)) :
    getMedicalFiles g presign store patientID category =
      (⟨200, .files (rows.map fun r => (withPresignedURL g presign (scanMedicalFile r)).1)⟩,
        Call.sql (medicalFilesQuery patientID category).1
            (medicalFilesQuery patientID category).2 ::
          (rows.map fun r => (withPresignedURL g presign (scanMedicalFile r)).2.1).flatten,
        (rows.map fun r => (withPresignedURL g presign (scanMedicalFile r)).2.2).flatten) := by
  unfold getMedicalFiles
  simp only [hstore, scanMedicalFiles_map_some]

theorem withPresignedURL_unconfigured (g : Gateway)
    (presign : String → String → Duration → Except String String) (file : MedicalFile)
    (hg : g.client = false ∨ g.bucket = "") :
    (withPresignedURL g presign file).1 = file ∧ (withPresignedURL g presign file).2.1 = [] := by
  unfold withPresignedURL generatePresignedURL
  rcases hg with hg | hg
  · simp [hg]
  · by_cases hc : g.client = false <;> simp [hc, hg]

theorem withPresignedURL_configured (g : Gateway)
    (presign : String → String → Duration → Except String String) (file : MedicalFile)
    (hc : g.client = true) (hb : g.bucket ≠ "") :
    (withPresignedURL g presign file).1 =
      (match presign g.bucket file.S3Key Hour with
        | .ok url => { file with S3URL := url }
        | .error _ => file) ∧
    (withPresignedURL g presign file).2.1 = [Call.presignGetObject g.bucket file.S3Key Hour] := by
  unfold withPresignedURL generatePresignedURL
  simp only [hc, hb, if_false, Bool.true_eq_false]
  cases presign g.bucket file.S3Key Hour <;> simp

theorem withPresignedURL_erase_link (g : Gateway)
    (presign : String → String → Duration → Except String String) (file : MedicalFile) :
    { (withPresignedURL g presign file).1 with S3URL := "" } = { file with S3URL := "" } := by
  unfold withPresignedURL
  cases generatePresignedURL g presign file.S3Key Hour with
  | mk res calls => cases res <;> rfl

theorem flatten_map_singleton {α β : Type} (f : α → β) :
    ∀ l : List α, (l.map fun a => [f a]).flatten = l.map f
  | [] => rfl
  | a :: l => by
    simp only [List.map_cons, List.flatten_cons, flatten_map_singleton f l,
      List.singleton_append]

theorem medicalFilesQuery_select (patientID category : String) :
    ∃ rest : String, (medicalFilesQuery patientID category).1 = medicalFilesBaseQuery ++ rest := by
  unfold medicalFilesQuery
  by_cases hp : patientID = "" <;> by_cases hc : category = ""
  · exact ⟨" ORDER BY uploaded_at DESC", by simp [hp, hc]⟩
  · exact ⟨" AND category = $" ++ toString (0 + 1) ++ " ORDER BY uploaded_at DESC", by
      simp [hp, hc, String.append_assoc]⟩
  · exact ⟨" AND patient_id = $" ++ toString (0 + 1) ++ " ORDER BY uploaded_at DESC", by
      simp [hp, hc, String.append_assoc]⟩
  · exact ⟨" AND patient_id = $" ++ toString (0 + 1) ++ (" AND category = $" ++
      toString (0 + 1 + 1) ++ " ORDER BY uploaded_at DESC"), by
      simp [hp, hc, String.append_assoc]⟩

/-- C9: when the gateway is unconfigured (no client, or no bucket name) and
the store answers the query with a list of rows, `getMedicalFiles` answers
200 with one entry per row, in the order of the rows, each entry being its
row with an empty temporary link, after no gateway call. Whatever the gateway
and whatever the presigner answers for each file, the response is 200 with
exactly the rows' files in order, links apart: no file is dropped. -/
theorem getMedicalFiles_unconfigured (g : Gateway)
    (presign : String → String → Duration → Except String String)
    (store : String → List SqlArg → Except String (List (Option MedicalFileRow)))
    (patientID category : String) (rows : List MedicalFileRow)
    (hg : g.client = false ∨ g.bucket = "")
    (hstore : store (medicalFilesQuery patientID category).1
      (medicalFilesQuery patientID category).2 = .ok (rows.map some)) :
    (getMedicalFiles g presign store patientID category).1 =
      ⟨200, .files (rows.map fun r =>
        { ID := r.id, PatientID := r.patient_id, PatientName := r.patient_name,
          FileName := r.file_name, FileType := r.file_type, FileSize := r.file_size,
          S3Key := r.s3_key, S3URL := "", Category := r.category,
          UploadedAt := r.uploaded_at })⟩ ∧
    (getMedicalFiles g presign store patientID category).2.1 =
      [Call.sql (medicalFilesQuery patientID category).1
        (medicalFilesQuery patientID category).2] ∧
    (∀ (g' : Gateway) (presign' : String → String → Duration → Except String String),
      ∃ files : List MedicalFile,
        (getMedicalFiles g' presign' store patientID category).1 = ⟨200, .files files⟩ ∧
        files.length = rows.length ∧
        files.map (fun f => { f with S3URL := "" }) = rows.map scanMedicalFile) := by
  have h := getMedicalFiles_of_rows g presign store patientID category rows hstore
  refine ⟨?_, ?_, fun g' presign' => ?_⟩
  · rw [h]
    simp only [withPresignedURL_unconfigured g presign _ hg]
    rfl
  · rw [h]
    simp only [withPresignedURL_unconfigured g presign _ hg]
    simp
  · refine ⟨_, by rw [getMedicalFiles_of_rows g' presign' store patientID category rows hstore],
      by simp, ?_⟩
    rw [List.map_map]
    refine List.map_congr_left fun r _ => ?_
    simp only [Function.comp]
    rw [withPresignedURL_erase_link]
    rfl

/-- Witness of C9: the two example rows listed with no client. -/
theorem getMedicalFiles_unconfigured_witness :
    (getMedicalFiles exampleNoClient examplePresign exampleStore "" "").1 =
      ⟨200, .files (exampleRows.map fun r =>
        { ID := r.id, PatientID := r.patient_id, PatientName := r.patient_name,
          FileName := r.file_name, FileType := r.file_type, FileSize := r.file_size,
          S3Key := r.s3_key, S3URL := "", Category := r.category,
          UploadedAt := r.uploaded_at })⟩ :=
  (getMedicalFiles_unconfigured exampleNoClient examplePresign exampleStore "" "" exampleRows
    (Or.inl rfl) rfl).1

/-- Counterexample to C10 as stated: with the client initialised but no
bucket name in the environment, and with a configured gateway whose presigner
fails, the listing is answered 200 and every entry has an empty link. -/
theorem getMedicalFiles_link_counterexample :
    exampleNoBucket.client = true ∧
    (getMedicalFiles exampleNoBucket examplePresign exampleStore "" "").1 =
      ⟨200, .files (exampleRows.map scanMedicalFile)⟩ ∧
    exampleGateway.client = true ∧ exampleGateway.bucket ≠ "" ∧
    (getMedicalFiles exampleGateway exampleFailingPresign exampleStore "" "").1 =
      ⟨200, .files (exampleRows.map scanMedicalFile)⟩ ∧
    ¬ (∀ f ∈ exampleRows.map scanMedicalFile, f.S3URL ≠ "") := by
  decide

/-- C10 as amended: when the client is initialised, the bucket name is set
and the store answers the query with a list of rows, `getMedicalFiles`
answers 200 with one entry per row in order, after one presign call per row,
made for that row's own storage key with a validity of one hour; an entry
whose presign call succeeds carries the URL of that call, and an entry whose
presign call fails has an empty link. So when every presign call succeeds
with a non-empty URL, every entry carries a non-empty link. The only
statement sent to the store is the SELECT: no link is written back. -/
theorem getMedicalFiles_configured (g : Gateway)
    (presign : String → String → Duration → Except String String)
    (store : String → List SqlArg → Except String (List (Option MedicalFileRow)))
    (patientID category : String) (rows : List MedicalFileRow)
    (hc : g.client = true) (hb : g.bucket ≠ "")
    (hstore : store (medicalFilesQuery patientID category).1
      (medicalFilesQuery patientID category).2 = .ok (rows.map some)) :
    (getMedicalFiles g presign store patientID category).1 =
      ⟨200, .files (rows.map fun r =>
        match presign g.bucket r.s3_key Hour with
        | .ok url => { scanMedicalFile r with S3URL := url }
        | .error _ => { scanMedicalFile r with S3URL := "" })⟩ ∧
    (getMedicalFiles g presign store patientID category).2.1 =
      Call.sql (medicalFilesQuery patientID category).1
          (medicalFilesQuery patientID category).2 ::
        rows.map (fun r => Call.presignGetObject g.bucket r.s3_key Hour) ∧
    Hour = 3600 * 1000000000 ∧
    (∃ rest : String, (medicalFilesQuery patientID category).1 = medicalFilesBaseQuery ++ rest) ∧
    ((∀ r ∈ rows, ∃ url, presign g.bucket r.s3_key Hour = .ok url ∧ url ≠ "") →
      ∀ files, (getMedicalFiles g presign store patientID category).1 = ⟨200, .files files⟩ →
        ∀ f ∈ files, f.S3URL ≠ "") := by
  have h := getMedicalFiles_of_rows g presign store patientID category rows hstore
  have hfiles : (rows.map fun r => (withPresignedURL g presign (scanMedicalFile r)).1) =
      rows.map fun r =>
        match presign g.bucket r.s3_key Hour with
        | .ok url => { scanMedicalFile r with S3URL := url }
        | .error _ => { scanMedicalFile r with S3URL := "" } := by
    refine List.map_congr_left fun r _ => ?_
    rw [(withPresignedURL_configured g presign _ hc hb).1]
    simp only [scanMedicalFile]
  refine ⟨?_, ?_, by decide, medicalFilesQuery_select patientID category, ?_⟩
  · rw [h, hfiles]
  · rw [h]
    simp only [(withPresignedURL_configured g presign _ hc hb).2]
    rw [flatten_map_singleton]
    rfl
  · intro hall files hresp f hf
    rw [h, hfiles] at hresp
    simp only [Response.mk.injEq, Body.files.injEq, true_and] at hresp
    rw [← hresp] at hf
    obtain ⟨r, hr, rfl⟩ := List.mem_map.1 hf
    obtain ⟨url, hurl, hne⟩ := hall r hr
    rw [hurl]
    exact hne

/-- Witness of C10 as amended: the two example rows listed through the
configured example gateway. -/
theorem getMedicalFiles_configured_witness :
    (getMedicalFiles exampleGateway examplePresign exampleStore "" "").2.1 =
      Call.sql (medicalFilesQuery "" "").1 (medicalFilesQuery "" "").2 ::
        exampleRows.map (fun r => Call.presignGetObject exampleGateway.bucket r.s3_key Hour) :=
  (getMedicalFiles_configured exampleGateway examplePresign exampleStore "" "" exampleRows
    rfl (by decide) rfl).2.1

/-! ## Upload with an unavailable or failing gateway -/

theorem uploadFileToS3_calls_kind (g : Gateway) (uuidNew : String) (putErr : Option String)
    (file : Except String (List Nat)) (fileName contentType patientID category : String) :
    ∀ c ∈ (uploadFileToS3 g uuidNew putErr file fileName contentType patientID category).2,
      c = Call.readAll ∨ ∃ input : PutObjectInput, c = Call.putObject input := by
  unfold uploadFileToS3
  by_cases hc : g.client = false
  · simp [hc]
  by_cases hb : g.bucket = ""
  · simp [hc, hb]
  simp only [hc, hb, if_false]
  cases file with
  | error e => simp
  | ok fileBytes => cases putErr <;> simp

theorem uploadFileToS3_error_iff (g : Gateway) (uuidNew : String) (putErr : Option String)
    (file : Except String (List Nat)) (fileName contentType patientID category : String) :
    (∃ err, (uploadFileToS3 g uuidNew putErr file fileName contentType patientID category).1 =
        .error err) ↔
      (g.client = false ∨ g.bucket = "" ∨ (∃ e, file = .error e) ∨ ∃ e, putErr = some e) := by
  unfold uploadFileToS3
  by_cases hc : g.client = false
  · simp [hc]
  by_cases hb : g.bucket = ""
  · simp [hc, hb]
  simp only [hc, hb, if_false, false_or]
  cases file with
  | error e => simp
  | ok fileBytes => cases putErr <;> simp

/-- C11: for an upload that passes validation, an unconfigured gateway (no
client, or no bucket name) makes `uploadFileToS3` fail with no call at all: no
byte is read, nothing is sent to a store. `uploadFileToS3` fails exactly when
the gateway is unconfigured, the read fails or `PutObject` fails, and whenever
it fails `uploadMedicalFile` answers 500 with the fixed message "Failed to
upload file", whatever the cause (which goes to the log only), sends no
statement to the relational store and leaves the table as it was. A statement
is sent to the store, or the table changed, only after `uploadFileToS3`
returned a key following its `PutObject`. -/
theorem upload_gateway_failure (u : CaseMap) (g : Gateway) (w : UploadWorld)
    (table : List MedicalFileRow) (req : UploadRequest) (header : FileHeader)
    (file : Except String (List Nat)) (contentType : String)
    (hid : req.patient_id ≠ "") (hname : req.patient_name ≠ "")
    (hfile : req.file = some (header, file)) (hsize : header.Size ≤ 10485760)
    (hvalid : validateFileType u header.Filename = (contentType, true)) :
    (g.client = false ∨ g.bucket = "" →
      (∃ err, uploadFileToS3 g w.uuidKey w.putErr file header.Filename contentType
        req.patient_id (categorizeFile u header.Filename) = (.error err, [])) ∧
      (uploadMedicalFile u g w table req).calls = []) ∧
    ((∃ err, (uploadFileToS3 g w.uuidKey w.putErr file header.Filename contentType
        req.patient_id (categorizeFile u header.Filename)).1 = .error err) ↔
      (g.client = false ∨ g.bucket = "" ∨ (∃ e, file = .error e) ∨ ∃ e, w.putErr = some e)) ∧
    (∀ (err : String) (calls : List Call),
      uploadFileToS3 g w.uuidKey w.putErr file header.Filename contentType
        req.patient_id (categorizeFile u header.Filename) = (.error err, calls) →
      (uploadMedicalFile u g w table req).response = ⟨500, .error "Failed to upload file"⟩ ∧
      (uploadMedicalFile u g w table req).table = table ∧
      (uploadMedicalFile u g w table req).calls = calls ∧
      (∀ (text : String) (args : List SqlArg),
        Call.sql text args ∉ (uploadMedicalFile u g w table req).calls) ∧
      (uploadMedicalFile u g w table req).logs = ["S3 upload error: " ++ err]) ∧
    (((uploadMedicalFile u g w table req).table ≠ table ∨
        ∃ (text : String) (args : List SqlArg),
          Call.sql text args ∈ (uploadMedicalFile u g w table req).calls) →
      ∃ (key : String) (input : PutObjectInput),
        uploadFileToS3 g w.uuidKey w.putErr file header.Filename contentType
          req.patient_id (categorizeFile u header.Filename) =
          (.ok key, [Call.readAll, Call.putObject input]) ∧
        input.Key = key) := by
  have heq := uploadMedicalFile_passed u g w table req header file contentType hid hname hfile
    (by rw [maxFileSize_eq]; exact hsize) hvalid
  have hfail : ∀ (err : String) (calls : List Call),
      uploadFileToS3 g w.uuidKey w.putErr file header.Filename contentType
        req.patient_id (categorizeFile u header.Filename) = (.error err, calls) →
      (uploadMedicalFile u g w table req).response = ⟨500, .error "Failed to upload file"⟩ ∧
      (uploadMedicalFile u g w table req).table = table ∧
      (uploadMedicalFile u g w table req).calls = calls ∧
      (∀ (text : String) (args : List SqlArg),
        Call.sql text args ∉ (uploadMedicalFile u g w table req).calls) ∧
      (uploadMedicalFile u g w table req).logs = ["S3 upload error: " ++ err] := by
    intro err calls hup
    have hkind := uploadFileToS3_calls_kind g w.uuidKey w.putErr file header.Filename
      contentType req.patient_id (categorizeFile u header.Filename)
    rw [hup] at heq hkind
    rw [heq]
    refine ⟨rfl, rfl, rfl, fun text args hmem => ?_, rfl⟩
    rcases hkind _ hmem with h | ⟨input, h⟩ <;> cases h
  refine ⟨fun hg => ?_, uploadFileToS3_error_iff _ _ _ _ _ _ _ _, hfail, fun hchange => ?_⟩
  · obtain ⟨err, herr, hcalls⟩ := uploadFileToS3_unconfigured g w.uuidKey w.putErr file
      header.Filename contentType req.patient_id (categorizeFile u header.Filename) hg
    have hup : uploadFileToS3 g w.uuidKey w.putErr file header.Filename contentType
        req.patient_id (categorizeFile u header.Filename) = (.error err, []) :=
      Prod.ext herr hcalls
    exact ⟨⟨err, hup⟩, (hfail err [] hup).2.2.1⟩
  · cases hup : uploadFileToS3 g w.uuidKey w.putErr file header.Filename contentType
        req.patient_id (categorizeFile u header.Filename) with
    | mk res calls =>
      cases res with
      | error err =>
        obtain ⟨-, htable, -, hnosql, -⟩ := hfail err calls hup
        rcases hchange with h | ⟨text, args, h⟩
        · exact absurd htable h
        · exact absurd h (hnosql text args)
      | ok key =>
        obtain ⟨-, -, -, -, fileBytes, -, hcalls⟩ := uploadFileToS3_ok _ _ _ _ _ _ _ _ _ _ hup
        exact ⟨key, _, by rw [hcalls], rfl⟩

/-- Witness of C11: the example upload through a gateway without client is
answered 500 "Failed to upload file" after no call, and no row is added. -/
theorem upload_gateway_failure_witness :
    (uploadMedicalFile asciiCase exampleNoClient exampleUploadWorld exampleRows
      exampleUpload).calls = [] ∧
    (uploadMedicalFile asciiCase exampleNoClient exampleUploadWorld exampleRows
      exampleUpload).response = ⟨500, .error "Failed to upload file"⟩ ∧
    (uploadMedicalFile asciiCase exampleNoClient exampleUploadWorld exampleRows
      exampleUpload).table = exampleRows :=
  ⟨((upload_gateway_failure asciiCase exampleNoClient exampleUploadWorld exampleRows
      exampleUpload ⟨"Lab_Insurance.PDF", 3⟩ (.ok [37, 80, 68]) "application/pdf"
      (by decide) (by decide) rfl (by decide) (by decide)).1 (Or.inl rfl)).2,
    ((upload_gateway_failure asciiCase exampleNoClient exampleUploadWorld exampleRows
      exampleUpload ⟨"Lab_Insurance.PDF", 3⟩ (.ok [37, 80, 68]) "application/pdf"
      (by decide) (by decide) rfl (by decide) (by decide)).2.2.1
      "S3 client not initialized" [] rfl).1,
    ((upload_gateway_failure asciiCase exampleNoClient exampleUploadWorld exampleRows
      exampleUpload ⟨"Lab_Insurance.PDF", 3⟩ (.ok [37, 80, 68]) "application/pdf"
      (by decide) (by decide) rfl (by decide) (by decide)).2.2.1
      "S3 client not initialized" [] rfl).2.1⟩

/-! ## Prescriptions -/

theorem createPrescription_found (w : PrescriptionWorld) (appointments : List Appointment)
    (table : List Prescription) (req : CreatePrescriptionRequest) (found : Appointment)
    (hfind : appointments.find? (fun a => a.ID = req.AppointmentID) = some found)
    (hsel : w.selectErr = none) :
    (createPrescription w appointments table (.ok req)).calls =
      [Call.sql selectAppointmentQuery [.str req.AppointmentID],
        Call.sql insertPrescriptionQuery
          [.str w.uuidNew, .str req.AppointmentID, .str found.DoctorID,
            .str found.PatientName, .str req.Medications, .str req.Dosage,
            .str req.Instructions, .time w.now]] ∧
    (w.insertErr = none →
      (createPrescription w appointments table (.ok req)).response =
        ⟨201, .prescription ⟨w.uuidNew, req.AppointmentID, found.DoctorID, found.PatientName,
          req.Medications, req.Dosage, req.Instructions, w.now⟩⟩ ∧
      (createPrescription w appointments table (.ok req)).table =
        table ++ [⟨w.uuidNew, req.AppointmentID, found.DoctorID, found.PatientName,
          req.Medications, req.Dosage, req.Instructions, w.now⟩]) ∧
    (w.insertErr ≠ none →
      (createPrescription w appointments table (.ok req)).response =
        ⟨500, .error "Failed to create prescription"⟩ ∧
      (createPrescription w appointments table (.ok req)).table = table) := by
  unfold createPrescription
  simp only [hsel, hfind]
  cases hins : w.insertErr <;> simp

/-- C12: for a bound request, with the SELECT answered: when no appointment
row has the requested `appointment_id` the handler answers 404, its only
store call is the SELECT and the table of prescriptions is unchanged; when
one has, the INSERT carries the request's `appointment_id`, the `doctor_id`
and `patient_name` of the appointment the SELECT returned (that very row when
ids are unique), and the request's medications, dosage and instructions, and
when the INSERT is answered exactly that prescription is appended and
returned with 201. -/
theorem createPrescription_spec (w : PrescriptionWorld) (appointments : List Appointment)
    (table : List Prescription) (req : CreatePrescriptionRequest)
    (hsel : w.selectErr = none) :
    ((∀ a ∈ appointments, a.ID ≠ req.AppointmentID) →
      (createPrescription w appointments table (.ok req)).response =
        ⟨404, .error "Appointment not found"⟩ ∧
      (createPrescription w appointments table (.ok req)).calls =
        [Call.sql selectAppointmentQuery [.str req.AppointmentID]] ∧
      (createPrescription w appointments table (.ok req)).table = table) ∧
    (∀ a ∈ appointments, a.ID = req.AppointmentID →
      ∃ found : Appointment, found ∈ appointments ∧ found.ID = req.AppointmentID ∧
        ((∀ b ∈ appointments, b.ID = req.AppointmentID → b = a) → found = a) ∧
        (createPrescription w appointments table (.ok req)).calls =
          [Call.sql selectAppointmentQuery [.str req.AppointmentID],
            Call.sql insertPrescriptionQuery
              [.str w.uuidNew, .str req.AppointmentID, .str found.DoctorID,
                .str found.PatientName, .str req.Medications, .str req.Dosage,
                .str req.Instructions, .time w.now]] ∧
        (w.insertErr = none →
          (createPrescription w appointments table (.ok req)).response =
            ⟨201, .prescription ⟨w.uuidNew, req.AppointmentID, found.DoctorID,
              found.PatientName, req.Medications, req.Dosage, req.Instructions, w.now⟩⟩ ∧
          (createPrescription w appointments table (.ok req)).table =
            table ++ [⟨w.uuidNew, req.AppointmentID, found.DoctorID, found.PatientName,
              req.Medications, req.Dosage, req.Instructions, w.now⟩]) ∧
        (w.insertErr ≠ none →
          (createPrescription w appointments table (.ok req)).response =
            ⟨500, .error "Failed to create prescription"⟩ ∧
          (createPrescription w appointments table (.ok req)).table = table)) := by
  refine ⟨fun hno => ?_, fun a ha hid => ?_⟩
  · have hfind : appointments.find? (fun a => a.ID = req.AppointmentID) = none := by
      rw [List.find?_eq_none]
      intro a ha
      simpa using hno a ha
    unfold createPrescription
    simp [hsel, hfind]
  · cases hf : appointments.find? (fun a => a.ID = req.AppointmentID) with
    | none =>
      have := List.find?_eq_none.1 hf a ha
      simp [hid] at this
    | some found =>
      have hmem : found ∈ appointments := List.mem_of_find?_eq_some hf
      have hfid : found.ID = req.AppointmentID := by simpa using List.find?_some hf
      obtain ⟨hcalls, hok, herr⟩ := createPrescription_found w appointments table req found hf hsel
      exact ⟨found, hmem, hfid, fun huniq => huniq found hmem hfid, hcalls, hok, herr⟩

/-- Witness of C12: a prescription for an unknown appointment is answered
404 and nothing is inserted. -/
theorem createPrescription_spec_witness :
    (createPrescription examplePrescriptionWorld exampleAppointments []
        (.ok exampleOrphanPrescriptionRequest)).response =
      ⟨404, .error "Appointment not found"⟩ ∧
    (createPrescription examplePrescriptionWorld exampleAppointments []
        (.ok exampleOrphanPrescriptionRequest)).table = [] ∧
    (createPrescription examplePrescriptionWorld exampleAppointments []
        (.ok examplePrescriptionRequest)).table =
      [⟨"5e6f7a8b-0000-4000-8000-000000000002", "appt-1", "doctor-7", "Ada Lovelace",
        "Amoxicillin", "500 mg three times a day", "Take with food", 1700000000000000003⟩] :=
  ⟨((createPrescription_spec examplePrescriptionWorld exampleAppointments []
      exampleOrphanPrescriptionRequest rfl).1 (by decide)).1,
    ((createPrescription_spec examplePrescriptionWorld exampleAppointments []
      exampleOrphanPrescriptionRequest rfl).1 (by decide)).2.2,
    by decide⟩

/-! ## The appointment list of a doctor -/

set_option maxRecDepth 100000 in
theorem doctorAppointmentsQuery_no_filter (cal : Calendar) (now : Time)
    (doctorID filter : String)
    (h1 : filter ≠ "past") (h2 : filter ≠ "today") (h3 : filter ≠ "future") :
    doctorAppointmentsQuery cal now doctorID filter =
      (doctorAppointmentsBaseQuery ++ " " ++ " ORDER BY a.date_time DESC",
        [SqlArg.str doctorID]) := by
  unfold doctorAppointmentsQuery
  simp only [h1, h2, h3, if_false]
  have hslice : sliceTo (doctorAppointmentsBaseQuery ++ " ORDER BY a.date_time DESC")
      ((doctorAppointmentsBaseQuery ++ " ORDER BY a.date_time DESC").data.length - 25) =
      doctorAppointmentsBaseQuery ++ " " := by decide
  rw [hslice]

set_option maxRecDepth 100000 in
theorem noFilterText_facts :
    (" ORDER BY a.date_time DESC" : String).length = 26 ∧
    occursIn "WHERE a.doctor_id = $1"
      (doctorAppointmentsBaseQuery ++ " " ++ " ORDER BY a.date_time DESC") ∧
    placeholders (doctorAppointmentsBaseQuery ++ " " ++ " ORDER BY a.date_time DESC") = [1] ∧
    ¬ occursIn " AND " (doctorAppointmentsBaseQuery ++ " " ++ " ORDER BY a.date_time DESC") ∧
    '<' ∉ (doctorAppointmentsBaseQuery ++ " " ++ " ORDER BY a.date_time DESC").data ∧
    '>' ∉ (doctorAppointmentsBaseQuery ++ " " ++ " ORDER BY a.date_time DESC").data ∧
    occurrences "ORDER BY"
      (doctorAppointmentsBaseQuery ++ " " ++ " ORDER BY a.date_time DESC") = 1 ∧
    occurrences "WHERE" (doctorAppointmentsBaseQuery ++ " " ++ " ORDER BY a.date_time DESC") = 1 ∧
    ¬ occursIn "ORDER" (doctorAppointmentsBaseQuery ++ " ") ∧
    (∀ c ∈ (doctorAppointmentsBaseQuery ++ " " ++ " ORDER BY a.date_time DESC").data,
      c.val < 128) := by
  refine ⟨by decide, ?_, by decide, ?_, by decide, by decide, by decide, by decide, ?_,
    by decide⟩
  · rw [← stringsContains_iff]; decide
  · rw [← stringsContains_iff]; decide
  · rw [← stringsContains_iff]; decide

/-- C13: for every filter value other than "past", "today" and "future", the
text sent to the store is the base query, one space and one
` ORDER BY a.date_time DESC` clause: cutting 25 characters off the 26 of the
clause leaves the base query whole. The text holds `WHERE a.doctor_id = $1`,
no added ` AND ` condition and no comparison sign, `$1` as its one
placeholder, one `ORDER BY`, and the doctor id is the only argument. -/
theorem getDoctorAppointments_no_filter (cal : Calendar) (now : Time)
    (doctorID filter : String)
    (h1 : filter ≠ "past") (h2 : filter ≠ "today") (h3 : filter ≠ "future") :
    (doctorAppointmentsQuery cal now doctorID filter).1 =
      doctorAppointmentsBaseQuery ++ " " ++ " ORDER BY a.date_time DESC" ∧
    (doctorAppointmentsQuery cal now doctorID filter).2 = [SqlArg.str doctorID] ∧
    (" ORDER BY a.date_time DESC" : String).length = 26 ∧
    doctorAppointmentsBaseQuery.data <+: (doctorAppointmentsQuery cal now doctorID filter).1.data ∧
    occursIn "WHERE a.doctor_id = $1" (doctorAppointmentsQuery cal now doctorID filter).1 ∧
    placeholders (doctorAppointmentsQuery cal now doctorID filter).1 = [1] ∧
    ¬ occursIn " AND " (doctorAppointmentsQuery cal now doctorID filter).1 ∧
    '<' ∉ (doctorAppointmentsQuery cal now doctorID filter).1.data ∧
    '>' ∉ (doctorAppointmentsQuery cal now doctorID filter).1.data ∧
    occurrences "ORDER BY" (doctorAppointmentsQuery cal now doctorID filter).1 = 1 ∧
    occurrences "WHERE" (doctorAppointmentsQuery cal now doctorID filter).1 = 1 ∧
    ¬ occursIn "ORDER" (doctorAppointmentsBaseQuery ++ " ") ∧
    (∀ c ∈ (doctorAppointmentsQuery cal now doctorID filter).1.data, c.val < 128) := by
  rw [doctorAppointmentsQuery_no_filter cal now doctorID filter h1 h2 h3]
  obtain ⟨f1, f2, f3, f4, f5, f6, f7, f8, f9, f10⟩ := noFilterText_facts
  refine ⟨rfl, rfl, f1, ?_, f2, f3, f4, f5, f6, f7, f8, f9, f10⟩
  simp only [String.data_append, List.append_assoc]
  exact List.prefix_append _ _

/-- Witness of C13: the list of a doctor asked with an empty filter. -/
theorem getDoctorAppointments_no_filter_witness :
    (doctorAppointmentsQuery utcCalendar 1700000000000000000 "doctor-7" "").2 =
      [SqlArg.str "doctor-7"] ∧
    placeholders (doctorAppointmentsQuery utcCalendar 1700000000000000000 "doctor-7" "").1 =
      [1] :=
  ⟨(getDoctorAppointments_no_filter utcCalendar 1700000000000000000 "doctor-7" ""
      (by decide) (by decide) (by decide)).2.1,
    (getDoctorAppointments_no_filter utcCalendar 1700000000000000000 "doctor-7" ""
      (by decide) (by decide) (by decide)).2.2.2.2.2.1⟩

theorem doctorAppointmentsQuery_past (cal : Calendar) (now : Time) (doctorID : String) :
    doctorAppointmentsQuery cal now doctorID "past" =
      (doctorAppointmentsBaseQuery ++ " AND a.date_time < $2" ++ " ORDER BY a.date_time DESC",
        [SqlArg.str doctorID, SqlArg.time (cal.startOfDay now)]) := by
  unfold doctorAppointmentsQuery
  simp

theorem doctorAppointmentsQuery_today (cal : Calendar) (now : Time) (doctorID : String) :
    doctorAppointmentsQuery cal now doctorID "today" =
      (doctorAppointmentsBaseQuery ++ " AND a.date_time >= $2 AND a.date_time < $3" ++
          " ORDER BY a.date_time DESC",
        [SqlArg.str doctorID, SqlArg.time (cal.startOfDay now),
          SqlArg.time (cal.nextDay (cal.startOfDay now))]) := by
  unfold doctorAppointmentsQuery
  simp

theorem doctorAppointmentsQuery_future (cal : Calendar) (now : Time) (doctorID : String) :
    doctorAppointmentsQuery cal now doctorID "future" =
      (doctorAppointmentsBaseQuery ++ " AND a.date_time >= $2" ++ " ORDER BY a.date_time DESC",
        [SqlArg.str doctorID, SqlArg.time (cal.nextDay (cal.startOfDay now))]) := by
  unfold doctorAppointmentsQuery
  simp

set_option maxRecDepth 100000 in
theorem filterText_placeholders :
    placeholders (doctorAppointmentsBaseQuery ++ " AND a.date_time < $2" ++
      " ORDER BY a.date_time DESC") = [1, 2] ∧
    placeholders (doctorAppointmentsBaseQuery ++
      " AND a.date_time >= $2 AND a.date_time < $3" ++ " ORDER BY a.date_time DESC") =
      [1, 2, 3] ∧
    placeholders (doctorAppointmentsBaseQuery ++ " AND a.date_time >= $2" ++
      " ORDER BY a.date_time DESC") = [1, 2] := by
  refine ⟨by decide, by decide, by decide⟩

theorem selects_past (doctorID : String) (today : Time) (a : Appointment) :
    selectsAppointment [.before 2] [SqlArg.str doctorID, SqlArg.time today] a = true ↔
      a.DoctorID = doctorID ∧ a.DateTime < today := by
  simp only [selectsAppointment, dateCondHolds, timeArg, List.head?_cons, Option.some.injEq,
    SqlArg.str.injEq, List.all_cons, List.all_nil, Bool.and_true, Bool.and_eq_true,
    decide_eq_true_eq, List.get?_cons_succ, List.get?_cons_zero, Nat.add_one_sub_one]
  exact and_congr_left fun _ => eq_comm

theorem selects_today (doctorID : String) (today tomorrow : Time) (a : Appointment) :
    selectsAppointment [.notBefore 2, .before 3]
        [SqlArg.str doctorID, SqlArg.time today, SqlArg.time tomorrow] a = true ↔
      a.DoctorID = doctorID ∧ today ≤ a.DateTime ∧ a.DateTime < tomorrow := by
  simp only [selectsAppointment, dateCondHolds, timeArg, List.head?_cons, Option.some.injEq,
    SqlArg.str.injEq, List.all_cons, List.all_nil, Bool.and_true, Bool.and_eq_true,
    decide_eq_true_eq, List.get?_cons_succ, List.get?_cons_zero, Nat.add_one_sub_one]
  exact and_congr_left fun _ => eq_comm

theorem selects_future (doctorID : String) (tomorrow : Time) (a : Appointment) :
    selectsAppointment [.notBefore 2] [SqlArg.str doctorID, SqlArg.time tomorrow] a = true ↔
      a.DoctorID = doctorID ∧ tomorrow ≤ a.DateTime := by
  simp only [selectsAppointment, dateCondHolds, timeArg, List.head?_cons, Option.some.injEq,
    SqlArg.str.injEq, List.all_cons, List.all_nil, Bool.and_true, Bool.and_eq_true,
    decide_eq_true_eq, List.get?_cons_succ, List.get?_cons_zero, Nat.add_one_sub_one]
  exact and_congr_left fun _ => eq_comm

/-- C14: with `today` the midnight that starts the day of the current instant
and `tomorrow` one calendar day later, the query for filter "past" is the
base query with `a.date_time < $2` and `today` bound to `$2`; for "today"
`a.date_time >= $2 AND a.date_time < $3` with `today` and `tomorrow`; for
"future" `a.date_time >= $2` with `tomorrow`. So among the appointments of
the doctor, "past" selects exactly those before `today`, "today" those from
`today` up to but not at `tomorrow`, "future" those from `tomorrow` on;
every appointment of the doctor is selected by exactly one of the three; and
the placeholders of each text are as many as its arguments. -/
theorem appointment_filters_partition (cal : Calendar) (now : Time) (doctorID : String) :
    doctorAppointmentsQuery cal now doctorID "past" =
      (doctorAppointmentsBaseQuery ++ dateCondText (.before 2) ++ " ORDER BY a.date_time DESC",
        [SqlArg.str doctorID, SqlArg.time (cal.startOfDay now)]) ∧
    doctorAppointmentsQuery cal now doctorID "today" =
      (doctorAppointmentsBaseQuery ++ (dateCondText (.notBefore 2) ++ dateCondText (.before 3))
          ++ " ORDER BY a.date_time DESC",
        [SqlArg.str doctorID, SqlArg.time (cal.startOfDay now),
          SqlArg.time (cal.nextDay (cal.startOfDay now))]) ∧
    doctorAppointmentsQuery cal now doctorID "future" =
      (doctorAppointmentsBaseQuery ++ dateCondText (.notBefore 2) ++
          " ORDER BY a.date_time DESC",
        [SqlArg.str doctorID, SqlArg.time (cal.nextDay (cal.startOfDay now))]) ∧
    (dateCondText (.before 2) = " AND a.date_time < $2" ∧
      dateCondText (.notBefore 2) ++ dateCondText (.before 3) =
        " AND a.date_time >= $2 AND a.date_time < $3" ∧
      dateCondText (.notBefore 2) = " AND a.date_time >= $2") ∧
    (∀ a : Appointment,
      selectsAppointment [.before 2] (doctorAppointmentsQuery cal now doctorID "past").2 a
          = true ↔
        a.DoctorID = doctorID ∧ a.DateTime < cal.startOfDay now) ∧
    (∀ a : Appointment,
      selectsAppointment [.notBefore 2, .before 3]
          (doctorAppointmentsQuery cal now doctorID "today").2 a = true ↔
        a.DoctorID = doctorID ∧ cal.startOfDay now ≤ a.DateTime ∧
          a.DateTime < cal.nextDay (cal.startOfDay now)) ∧
    (∀ a : Appointment,
      selectsAppointment [.notBefore 2] (doctorAppointmentsQuery cal now doctorID "future").2 a
          = true ↔
        a.DoctorID = doctorID ∧ cal.nextDay (cal.startOfDay now) ≤ a.DateTime) ∧
    (∀ a : Appointment, a.DoctorID = doctorID →
      (selectsAppointment [.before 2]
            (doctorAppointmentsQuery cal now doctorID "past").2 a = true ∧
          selectsAppointment [.notBefore 2, .before 3]
            (doctorAppointmentsQuery cal now doctorID "today").2 a = false ∧
          selectsAppointment [.notBefore 2]
            (doctorAppointmentsQuery cal now doctorID "future").2 a = false) ∨
      (selectsAppointment [.before 2]
            (doctorAppointmentsQuery cal now doctorID "past").2 a = false ∧
          selectsAppointment [.notBefore 2, .before 3]
            (doctorAppointmentsQuery cal now doctorID "today").2 a = true ∧
          selectsAppointment [.notBefore 2]
            (doctorAppointmentsQuery cal now doctorID "future").2 a = false) ∨
      (selectsAppointment [.before 2]
            (doctorAppointmentsQuery cal now doctorID "past").2 a = false ∧
          selectsAppointment [.notBefore 2, .before 3]
            (doctorAppointmentsQuery cal now doctorID "today").2 a = false ∧
          selectsAppointment [.notBefore 2]
            (doctorAppointmentsQuery cal now doctorID "future").2 a = true)) ∧
    (placeholders (doctorAppointmentsQuery cal now doctorID "past").1 = [1, 2] ∧
      (doctorAppointmentsQuery cal now doctorID "past").2.length = 2) ∧
    (placeholders (doctorAppointmentsQuery cal now doctorID "today").1 = [1, 2, 3] ∧
      (doctorAppointmentsQuery cal now doctorID "today").2.length = 3) ∧
    (placeholders (doctorAppointmentsQuery cal now doctorID "future").1 = [1, 2] ∧
      (doctorAppointmentsQuery cal now doctorID "future").2.length = 2) := by
  have hp := doctorAppointmentsQuery_past cal now doctorID
  have ht := doctorAppointmentsQuery_today cal now doctorID
  have hf := doctorAppointmentsQuery_future cal now doctorID
  have hlt : cal.startOfDay now < cal.nextDay (cal.startOfDay now) := cal.later _
  have c1 : dateCondText (.before 2) = " AND a.date_time < $2" := by decide
  have c2 : dateCondText (.notBefore 2) ++ dateCondText (.before 3) =
      " AND a.date_time >= $2 AND a.date_time < $3" := by decide
  have c3 : dateCondText (.notBefore 2) = " AND a.date_time >= $2" := by decide
  obtain ⟨p1, p2, p3⟩ := filterText_placeholders
  refine ⟨by rw [hp, c1], by rw [ht, c2], by rw [hf, c3], ⟨c1, c2, c3⟩, fun a => ?_, fun a => ?_,
    fun a => ?_, fun a ha => ?_, ⟨by rw [hp]; exact p1, by rw [hp]; rfl⟩,
    ⟨by rw [ht]; exact p2, by rw [ht]; rfl⟩, ⟨by rw [hf]; exact p3, by rw [hf]; rfl⟩⟩
  · rw [hp]; exact selects_past _ _ a
  · rw [ht]; exact selects_today _ _ _ a
  · rw [hf]; exact selects_future _ _ a
  · rw [hp, ht, hf]
    simp only [← Bool.not_eq_true, selects_past, selects_today, selects_future, ha, true_and]
    by_cases h1 : a.DateTime < cal.startOfDay now
    · left
      exact ⟨h1, fun h => absurd (lt_of_lt_of_le h1 h.1) (lt_irrefl _),
        fun h => absurd (lt_of_lt_of_le (lt_trans h1 hlt) h) (lt_irrefl _)⟩
    · right
      have h1' : cal.startOfDay now ≤ a.DateTime := not_lt.1 h1
      by_cases h2 : a.DateTime < cal.nextDay (cal.startOfDay now)
      · left
        exact ⟨h1, ⟨h1', h2⟩, fun h => absurd (lt_of_lt_of_le h2 h) (lt_irrefl _)⟩
      · right
        exact ⟨h1, fun h => h2 h.2, not_lt.1 h2⟩

/-! ## Optional filters -/

theorem doctorsQuery_cases (specialty location : String) :
    (specialty = "" → location = "" →
      doctorsQuery specialty location =
        (doctorsBaseQuery ++ " ORDER BY rating DESC, name ASC", [])) ∧
    (specialty ≠ "" → location = "" →
      doctorsQuery specialty location =
        (doctorsBaseQuery ++ " AND LOWER(specialty) LIKE LOWER($1)" ++
            " ORDER BY rating DESC, name ASC",
          [SqlArg.str ("%" ++ specialty ++ "%")])) ∧
    (specialty = "" → location ≠ "" →
      doctorsQuery specialty location =
        (doctorsBaseQuery ++ " AND LOWER(location) LIKE LOWER($1)" ++
            " ORDER BY rating DESC, name ASC",
          [SqlArg.str ("%" ++ location ++ "%")])) ∧
    (specialty ≠ "" → location ≠ "" →
      doctorsQuery specialty location =
        (doctorsBaseQuery ++ " AND LOWER(specialty) LIKE LOWER($1)" ++
            " AND LOWER(location) LIKE LOWER($2)" ++ " ORDER BY rating DESC, name ASC",
          [SqlArg.str ("%" ++ specialty ++ "%"), SqlArg.str ("%" ++ location ++ "%")])) := by
  refine ⟨fun hs hl => ?_, fun hs hl => ?_, fun hs hl => ?_, fun hs hl => ?_⟩
  · unfold doctorsQuery
    simp only [hs, hl, ne_eq, not_true_eq_false, if_false]
  · unfold doctorsQuery
    simp only [hs, hl, ne_eq, not_false_eq_true, not_true_eq_false, if_true, if_false]
    refine Prod.ext ?_ rfl
    simp only [String.append_assoc]
    congr 1
  · unfold doctorsQuery
    simp only [hs, hl, ne_eq, not_false_eq_true, not_true_eq_false, if_true, if_false]
    refine Prod.ext ?_ rfl
    simp only [String.append_assoc]
    congr 1
  · unfold doctorsQuery
    simp only [hs, hl, ne_eq, not_false_eq_true, if_true]
    refine Prod.ext ?_ rfl
    simp only [String.append_assoc]
    congr 1

theorem medicalFilesQuery_cases (patientID category : String) :
    (patientID = "" → category = "" →
      medicalFilesQuery patientID category =
        (medicalFilesBaseQuery ++ " ORDER BY uploaded_at DESC", [])) ∧
    (patientID ≠ "" → category = "" →
      medicalFilesQuery patientID category =
        (medicalFilesBaseQuery ++ " AND patient_id = $1" ++ " ORDER BY uploaded_at DESC",
          [SqlArg.str patientID])) ∧
    (patientID = "" → category ≠ "" →
      medicalFilesQuery patientID category =
        (medicalFilesBaseQuery ++ " AND category = $1" ++ " ORDER BY uploaded_at DESC",
          [SqlArg.str category])) ∧
    (patientID ≠ "" → category ≠ "" →
      medicalFilesQuery patientID category =
        (medicalFilesBaseQuery ++ " AND patient_id = $1" ++ " AND category = $2" ++
            " ORDER BY uploaded_at DESC",
          [SqlArg.str patientID, SqlArg.str category])) := by
  refine ⟨fun hs hl => ?_, fun hs hl => ?_, fun hs hl => ?_, fun hs hl => ?_⟩
  · unfold medicalFilesQuery
    simp only [hs, hl, ne_eq, not_true_eq_false, if_false]
  · unfold medicalFilesQuery
    simp only [hs, hl, ne_eq, not_false_eq_true, not_true_eq_false, if_true, if_false]
    refine Prod.ext ?_ rfl
    simp only [String.append_assoc]
    congr 1
  · unfold medicalFilesQuery
    simp only [hs, hl, ne_eq, not_false_eq_true, not_true_eq_false, if_true, if_false]
    refine Prod.ext ?_ rfl
    simp only [String.append_assoc]
    congr 1
  · unfold medicalFilesQuery
    simp only [hs, hl, ne_eq, not_false_eq_true, if_true]
    refine Prod.ext ?_ rfl
    simp only [String.append_assoc]
    congr 1

theorem doctorPrescriptionsQuery_cases (doctorID patientName medication : String) :
    (patientName = "" → medication = "" →
      doctorPrescriptionsQuery doctorID patientName medication =
        (doctorPrescriptionsBaseQuery ++ " ORDER BY p.created_at DESC",
          [SqlArg.str doctorID])) ∧
    (patientName ≠ "" → medication = "" →
      doctorPrescriptionsQuery doctorID patientName medication =
        (doctorPrescriptionsBaseQuery ++ " AND LOWER(p.patient_name) LIKE LOWER($2)" ++
            " ORDER BY p.created_at DESC",
          [SqlArg.str doctorID, SqlArg.str ("%" ++ patientName ++ "%")])) ∧
    (patientName = "" → medication ≠ "" →
      doctorPrescriptionsQuery doctorID patientName medication =
        (doctorPrescriptionsBaseQuery ++ " AND LOWER(p.medications) LIKE LOWER($2)" ++
            " ORDER BY p.created_at DESC",
          [SqlArg.str doctorID, SqlArg.str ("%" ++ medication ++ "%")])) ∧
    (patientName ≠ "" → medication ≠ "" →
      doctorPrescriptionsQuery doctorID patientName medication =
        (doctorPrescriptionsBaseQuery ++ " AND LOWER(p.patient_name) LIKE LOWER($2)" ++
            " AND LOWER(p.medications) LIKE LOWER($3)" ++ " ORDER BY p.created_at DESC",
          [SqlArg.str doctorID, SqlArg.str ("%" ++ patientName ++ "%"),
            SqlArg.str ("%" ++ medication ++ "%")])) := by
  refine ⟨fun hs hl => ?_, fun hs hl => ?_, fun hs hl => ?_, fun hs hl => ?_⟩
  · unfold doctorPrescriptionsQuery
    simp only [hs, hl, ne_eq, not_true_eq_false, if_false]
  · unfold doctorPrescriptionsQuery
    simp only [hs, hl, ne_eq, not_false_eq_true, not_true_eq_false, if_true, if_false]
    refine Prod.ext ?_ rfl
    simp only [String.append_assoc]
    congr 1
  · unfold doctorPrescriptionsQuery
    simp only [hs, hl, ne_eq, not_false_eq_true, not_true_eq_false, if_true, if_false]
    refine Prod.ext ?_ rfl
    simp only [String.append_assoc]
    congr 1
  · unfold doctorPrescriptionsQuery
    simp only [hs, hl, ne_eq, not_false_eq_true, if_true]
    refine Prod.ext ?_ rfl
    simp only [String.append_assoc]
    congr 1

set_option maxRecDepth 100000 in
theorem filterQueryText_placeholders :
    (placeholders (doctorsBaseQuery ++ " ORDER BY rating DESC, name ASC") = [] ∧
      placeholders (doctorsBaseQuery ++ " AND LOWER(specialty) LIKE LOWER($1)" ++
        " ORDER BY rating DESC, name ASC") = [1] ∧
      placeholders (doctorsBaseQuery ++ " AND LOWER(location) LIKE LOWER($1)" ++
        " ORDER BY rating DESC, name ASC") = [1] ∧
      placeholders (doctorsBaseQuery ++ " AND LOWER(specialty) LIKE LOWER($1)" ++
        " AND LOWER(location) LIKE LOWER($2)" ++ " ORDER BY rating DESC, name ASC") = [1, 2]) ∧
    (placeholders (medicalFilesBaseQuery ++ " ORDER BY uploaded_at DESC") = [] ∧
      placeholders (medicalFilesBaseQuery ++ " AND patient_id = $1" ++
        " ORDER BY uploaded_at DESC") = [1] ∧
      placeholders (medicalFilesBaseQuery ++ " AND category = $1" ++
        " ORDER BY uploaded_at DESC") = [1] ∧
      placeholders (medicalFilesBaseQuery ++ " AND patient_id = $1" ++ " AND category = $2" ++
        " ORDER BY uploaded_at DESC") = [1, 2]) ∧
    (placeholders (doctorPrescriptionsBaseQuery ++ " ORDER BY p.created_at DESC") = [1] ∧
      placeholders (doctorPrescriptionsBaseQuery ++
        " AND LOWER(p.patient_name) LIKE LOWER($2)" ++ " ORDER BY p.created_at DESC") =
        [1, 2] ∧
      placeholders (doctorPrescriptionsBaseQuery ++
        " AND LOWER(p.medications) LIKE LOWER($2)" ++ " ORDER BY p.created_at DESC") =
        [1, 2] ∧
      placeholders (doctorPrescriptionsBaseQuery ++
        " AND LOWER(p.patient_name) LIKE LOWER($2)" ++
        " AND LOWER(p.medications) LIKE LOWER($3)" ++ " ORDER BY p.created_at DESC") =
        [1, 2, 3]) := by
  refine ⟨⟨by decide, by decide, by decide, by decide⟩, ⟨by decide, by decide, by decide,
    by decide⟩, ⟨by decide, by decide, by decide, by decide⟩⟩

theorem doctorsQuery_aligned (specialty location : String) :
    placeholders (doctorsQuery specialty location).1 =
      List.range' 1 (doctorsQuery specialty location).2.length := by
  obtain ⟨⟨p1, p2, p3, p4⟩, -, -⟩ := filterQueryText_placeholders
  obtain ⟨c1, c2, c3, c4⟩ := doctorsQuery_cases specialty location
  by_cases hs : specialty = "" <;> by_cases hl : location = ""
  · rw [c1 hs hl]; exact p1
  · rw [c3 hs hl]; exact p3
  · rw [c2 hs hl]; exact p2
  · rw [c4 hs hl]; exact p4

theorem medicalFilesQuery_aligned (patientID category : String) :
    placeholders (medicalFilesQuery patientID category).1 =
      List.range' 1 (medicalFilesQuery patientID category).2.length := by
  obtain ⟨-, ⟨p1, p2, p3, p4⟩, -⟩ := filterQueryText_placeholders
  obtain ⟨c1, c2, c3, c4⟩ := medicalFilesQuery_cases patientID category
  by_cases hs : patientID = "" <;> by_cases hl : category = ""
  · rw [c1 hs hl]; exact p1
  · rw [c3 hs hl]; exact p3
  · rw [c2 hs hl]; exact p2
  · rw [c4 hs hl]; exact p4

theorem doctorPrescriptionsQuery_aligned (doctorID patientName medication : String) :
    placeholders (doctorPrescriptionsQuery doctorID patientName medication).1 =
      List.range' 1 (doctorPrescriptionsQuery doctorID patientName medication).2.length := by
  obtain ⟨-, -, ⟨p1, p2, p3, p4⟩⟩ := filterQueryText_placeholders
  obtain ⟨c1, c2, c3, c4⟩ := doctorPrescriptionsQuery_cases doctorID patientName medication
  by_cases hs : patientName = "" <;> by_cases hl : medication = ""
  · rw [c1 hs hl]; exact p1
  · rw [c3 hs hl]; exact p3
  · rw [c2 hs hl]; exact p2
  · rw [c4 hs hl]; exact p4

/-- C15: in `getDoctors`, `getMedicalFiles` and `getDoctorPrescriptions`, for
every combination of present (non-empty) and absent optional filters, the
placeholders of the built text are 1, 2, ... in order of appearance, as many
as there are arguments. The texts and argument lists are given for each
combination: a present filter adds one condition on its own column with the
next placeholder and its value as the next argument (for the substring
filters `LOWER(column) LIKE LOWER($n)` with the value between two `%`), an
absent filter adds neither; `getDoctorPrescriptions` starts from the doctor
id bound to `$1`. -/
theorem optional_filters_aligned
    (specialty location patientID category doctorID patientName medication : String) :
    (placeholders (doctorsQuery specialty location).1 =
        List.range' 1 (doctorsQuery specialty location).2.length ∧
      placeholders (medicalFilesQuery patientID category).1 =
        List.range' 1 (medicalFilesQuery patientID category).2.length ∧
      placeholders (doctorPrescriptionsQuery doctorID patientName medication).1 =
        List.range' 1 (doctorPrescriptionsQuery doctorID patientName medication).2.length) ∧
    ((specialty = "" → location = "" →
       doctorsQuery specialty location =
         (doctorsBaseQuery ++ " ORDER BY rating DESC, name ASC", [])) ∧
     (specialty ≠ "" → location = "" →
       doctorsQuery specialty location =
         (doctorsBaseQuery ++ " AND LOWER(specialty) LIKE LOWER($1)" ++
             " ORDER BY rating DESC, name ASC",
           [SqlArg.str ("%" ++ specialty ++ "%")])) ∧
     (specialty = "" → location ≠ "" →
       doctorsQuery specialty location =
         (doctorsBaseQuery ++ " AND LOWER(location) LIKE LOWER($1)" ++
             " ORDER BY rating DESC, name ASC",
           [SqlArg.str ("%" ++ location ++ "%")])) ∧
     (specialty ≠ "" → location ≠ "" →
       doctorsQuery specialty location =
         (doctorsBaseQuery ++ " AND LOWER(specialty) LIKE LOWER($1)" ++
             " AND LOWER(location) LIKE LOWER($2)" ++ " ORDER BY rating DESC, name ASC",
           [SqlArg.str ("%" ++ specialty ++ "%"), SqlArg.str ("%" ++ location ++ "%")]))) ∧
    ((patientID = "" → category = "" →
       medicalFilesQuery patientID category =
         (medicalFilesBaseQuery ++ " ORDER BY uploaded_at DESC", [])) ∧
     (patientID ≠ "" → category = "" →
       medicalFilesQuery patientID category =
         (medicalFilesBaseQuery ++ " AND patient_id = $1" ++ " ORDER BY uploaded_at DESC",
           [SqlArg.str patientID])) ∧
     (patientID = "" → category ≠ "" →
       medicalFilesQuery patientID category =
         (medicalFilesBaseQuery ++ " AND category = $1" ++ " ORDER BY uploaded_at DESC",
           [SqlArg.str category])) ∧
     (patientID ≠ "" → category ≠ "" →
       medicalFilesQuery patientID category =
         (medicalFilesBaseQuery ++ " AND patient_id = $1" ++ " AND category = $2" ++
             " ORDER BY uploaded_at DESC",
           [SqlArg.str patientID, SqlArg.str category]))) ∧
    ((patientName = "" → medication = "" →
       doctorPrescriptionsQuery doctorID patientName medication =
         (doctorPrescriptionsBaseQuery ++ " ORDER BY p.created_at DESC",
           [SqlArg.str doctorID])) ∧
     (patientName ≠ "" → medication = "" →
       doctorPrescriptionsQuery doctorID patientName medication =
         (doctorPrescriptionsBaseQuery ++ " AND LOWER(p.patient_name) LIKE LOWER($2)" ++
             " ORDER BY p.created_at DESC",
           [SqlArg.str doctorID, SqlArg.str ("%" ++ patientName ++ "%")])) ∧
     (patientName = "" → medication ≠ "" →
       doctorPrescriptionsQuery doctorID patientName medication =
         (doctorPrescriptionsBaseQuery ++ " AND LOWER(p.medications) LIKE LOWER($2)" ++
             " ORDER BY p.created_at DESC",
           [SqlArg.str doctorID, SqlArg.str ("%" ++ medication ++ "%")])) ∧
     (patientName ≠ "" → medication ≠ "" →
       doctorPrescriptionsQuery doctorID patientName medication =
         (doctorPrescriptionsBaseQuery ++ " AND LOWER(p.patient_name) LIKE LOWER($2)" ++
             " AND LOWER(p.medications) LIKE LOWER($3)" ++ " ORDER BY p.created_at DESC",
           [SqlArg.str doctorID, SqlArg.str ("%" ++ patientName ++ "%"),
             SqlArg.str ("%" ++ medication ++ "%")]))) := by
  exact ⟨⟨doctorsQuery_aligned specialty location, medicalFilesQuery_aligned patientID category,
      doctorPrescriptionsQuery_aligned doctorID patientName medication⟩,
    doctorsQuery_cases specialty location, medicalFilesQuery_cases patientID category,
    doctorPrescriptionsQuery_cases doctorID patientName medication⟩

end Doktolib
